import Mathlib

/-!
Shallow embedding of the mcmc-rs memcached client codec (src/lib.rs):
wire primitives, command encoders, response decoders, the pipeline
dispatcher `execute_cmd`, and the CRC32 sharding router `ClientCrc32`.

Byte streams are `List Nat` (byte values). Fallible Rust code returns
`Except Err`; a Rust `panic!` / `unwrap()` / `unreachable!` / failed
`assert!` is modelled as the distinguished error `Err.panicked`, an
`io::Error::other(line)` protocol error as `Err.protocol line`, and an
unexpected-EOF from `read_exact` as `Err.eof`.  Machine integers are
modelled as `Nat`/`Int`; none of the verified properties depends on
integer overflow.
-/

namespace Mcmc

/-- Bytes of a string literal (all protocol tokens are ASCII). -/
def str (s : String) : List Nat := s.data.map Char.toNat

/-- Errors a decoder can produce. -/
inductive Err where
  | protocol (line : List Nat)
  | eof
  | panicked
deriving DecidableEq, Repr

/-- Model of `read_line` on a buffered byte stream: consumes bytes up to and
including the first LF (or the whole stream when no LF remains) and returns
`(line, rest)`.  At EOF the line is empty. -/
def readLine : List Nat → List Nat × List Nat
  | [] => ([], [])
  | b :: bs =>
    if b = 10 then ([10], bs)
    else
      let p := readLine bs
      (b :: p.1, p.2)

/-- Model of `read_exact` into a buffer of length `n`: errors when the
stream is too short. -/
def readExact (n : Nat) (s : List Nat) : Except Err (List Nat × List Nat) :=
  if n ≤ s.length then .ok (s.take n, s.drop n) else .error .eof

/-- ASCII whitespace, as removed by Rust `str::trim_end` on protocol lines. -/
def isWs (b : Nat) : Bool := b = 32 || b = 9 || b = 10 || b = 13

/-- Model of `str::trim_end`. -/
def trimEnd (l : List Nat) : List Nat := (l.reverse.dropWhile isWs).reverse

/-- Model of Rust `str::split(' ')`: splits at every space byte keeping empty
chunks; always returns at least one chunk. -/
def splitSpaces : List Nat → List (List Nat)
  | [] => [[]]
  | b :: bs =>
    let r := splitSpaces bs
    if b = 32 then [] :: r
    else (b :: r.headI) :: r.tail

/-- Model of the line normalisation done by the `lines()` stream adapter:
one trailing LF is removed, and a trailing CR only when an LF was removed. -/
def stripNL (l : List Nat) : List Nat :=
  if l.getLast? = some 10 then
    let l1 := l.dropLast
    if l1.getLast? = some 13 then l1.dropLast else l1
  else l

/-- Decimal digits helper for `parseNat`. -/
def parseDigits : List Nat → Nat → Option Nat
  | [], acc => some acc
  | b :: bs, acc =>
    if 48 ≤ b ∧ b ≤ 57 then parseDigits bs (acc * 10 + (b - 48)) else none

/-- Model of `str::parse` for an unsigned integer: optional leading `+`,
then one or more decimal digits (overflow is not modelled). -/
def parseNat : List Nat → Option Nat
  | [] => none
  | b :: bs =>
    if b = 43 then
      match bs with
      | [] => none
      | _ => parseDigits bs 0
    else parseDigits (b :: bs) 0

/-- Model of `str::parse` for a signed integer (`i64` fields). -/
def parseInt : List Nat → Option Int
  | [] => none
  | b :: bs =>
    if b = 45 then
      match bs with
      | [] => none
      | _ => (parseDigits bs 0).map (fun n => -(n : Int))
    else if b = 43 then
      match bs with
      | [] => none
      | _ => (parseDigits bs 0).map (fun n => (n : Int))
    else (parseDigits (b :: bs) 0).map (fun n => (n : Int))

/-- Decimal digits, structurally recursive on a fuel bound (any fuel above
the value is enough, see `natDec_eq`). -/
def natDecAux (fuel n : Nat) : List Nat :=
  match fuel with
  | 0 => []
  | fuel + 1 => if n < 10 then [48 + n] else natDecAux fuel (n / 10) ++ [48 + n % 10]

/-- Decimal rendering of an unsigned integer (Rust `Display` for
`u32`/`u64`/`usize`). -/
def natDec (n : Nat) : List Nat := natDecAux (n + 1) n

/-- Decimal rendering of a signed integer (Rust `Display` for `i64`). -/
def intDec (i : Int) : List Nat :=
  if i < 0 then 45 :: natDec i.natAbs else natDec i.toNat

/-- `Item` produced by the classic retrieval decoders. -/
structure Item where
  key : List Nat
  flags : Nat
  cas_unique : Option Nat
  data_block : List Nat
deriving DecidableEq, Repr

/-- Decoded meta-get response. -/
structure MgItem where
  success : Bool
  base64_key : Bool := false
  cas : Option Nat := none
  flags : Option Nat := none
  hit : Option Nat := none
  key : Option (List Nat) := none
  last_access_ttl : Option Int := none
  opaq : Option (List Nat) := none  -- Rust field `opaque` (renamed: Lean keyword)
  size : Option Nat := none
  ttl : Option Int := none
  data_block : Option (List Nat) := none
  won_recache : Bool := false
  stale : Bool := false
  already_win : Bool := false
deriving DecidableEq, Repr

/-- Decoded meta-set response. -/
structure MsItem where
  success : Bool
  cas : Option Nat := none
  key : Option (List Nat) := none
  opaq : Option (List Nat) := none  -- Rust field `opaque` (renamed: Lean keyword)
  size : Option Nat := none
  base64_key : Bool := false
deriving DecidableEq, Repr

/-- Decoded meta-delete response. -/
structure MdItem where
  success : Bool
  key : Option (List Nat) := none
  opaq : Option (List Nat) := none  -- Rust field `opaque` (renamed: Lean keyword)
  base64_key : Bool := false
deriving DecidableEq, Repr

/-- Decoded meta-arithmetic response. -/
structure MaItem where
  success : Bool
  opaq : Option (List Nat) := none  -- Rust field `opaque` (renamed: Lean keyword)
  ttl : Option Int := none
  cas : Option Nat := none
  number : Option Nat := none
  key : Option (List Nat) := none
  base64_key : Bool := false
deriving DecidableEq, Repr

/-- The tagged union of every decoded shape the pipeline dispatcher can
produce (Rust `PipelineResponse`); the stats map is modelled as an
association list. -/
inductive PipelineResponse where
  | Bool (b : Bool)
  | OptionItem (i : Option Item)
  | VecItem (is : List Item)
  | String (s : List Nat)
  | OptionString (s : Option (List Nat))
  | VecString (ss : List (List Nat))
  | Unit
  | Value (v : Option Nat)
  | HashMap (m : List (List Nat × List Nat))
  | MetaGet (i : MgItem)
  | MetaSet (i : MsItem)
  | MetaDelete (i : MdItem)
  | MetaArithmetic (i : MaItem)
deriving DecidableEq, Repr

instance {ε α : Type} [DecidableEq ε] [DecidableEq α] : DecidableEq (Except ε α) := fun a b =>
  match a, b with
  | .error e, .error f =>
    if h : e = f then .isTrue (by rw [h]) else .isFalse (fun hc => h (by cases hc; rfl))
  | .error _, .ok _ => .isFalse (fun hc => Except.noConfusion hc)
  | .ok _, .error _ => .isFalse (fun hc => Except.noConfusion hc)
  | .ok v, .ok w =>
    if h : v = w then .isTrue (by rw [h]) else .isFalse (fun hc => h (by cases hc; rfl))

/-- Rust `Option::unwrap` / a panicking `parse().unwrap()`. -/
def unwrapO : Option α → Except Err α
  | some a => .ok a
  | none => .error .panicked

/-- Model of `parse_storage_rp`: one status line, suppressed under
`noreply`. -/
def parse_storage_rp (noreply : Bool) (s : List Nat) : Except Err (Bool × List Nat) :=
  if noreply then .ok (true, s)
  else
    let p := readLine s
    if p.1 = str "STORED\r\n" then .ok (true, p.2)
    else if p.1 = str "NOT_STORED\r\n" ∨ p.1 = str "EXISTS\r\n" ∨ p.1 = str "NOT_FOUND\r\n" then
      .ok (false, p.2)
    else .error (.protocol p.1)

/-- Header fields of one `VALUE key flags bytes [cas]` line, with the
panicking `unwrap`s of the source. -/
def parseValueHeader (line : List Nat) : Except Err (List Nat × Nat × Nat × Option Nat) := do
  let toks := splitSpaces line
  let key ← unwrapO (toks.get? 1)
  let ftok ← unwrapO (toks.get? 2)
  let flags ← unwrapO (parseNat ftok)
  let btok ← unwrapO (toks.get? 3)
  let bytes ← unwrapO (parseNat (trimEnd btok))
  match toks.get? 4 with
  | none => return (key, flags, bytes, none)
  | some ctok =>
    let cas ← unwrapO (parseNat (trimEnd ctok))
    return (key, flags, bytes, some cas)

/-- Loop body of `parse_retrieval_rp`: collect `VALUE` blocks until an
`END\r\n` line; the data block is read with `read_exact (bytes + 2)` and
truncated back to `bytes`. -/
def parseRetrievalGo (line : List Nat) (s : List Nat) :
    Except Err (List Item × List Nat) :=
  if (str "VALUE").isPrefixOf line then
    match parseValueHeader line with
    | .error e => .error e
    | .ok (key, flags, bytes, cas) =>
      -- `read_exact` into a `bytes + 2` buffer: unexpected EOF when the
      -- stream is shorter, otherwise exactly `bytes + 2` octets consumed.
      if hlen : bytes + 2 ≤ s.length then
        let data := s.take (bytes + 2)
        let p := readLine (s.drop (bytes + 2))
        match parseRetrievalGo p.1 p.2 with
        | .error e => .error e
        | .ok (items, s4) =>
          .ok (⟨key, flags, cas, data.take bytes⟩ :: items, s4)
      else .error .eof
  else if line = str "END\r\n" then .ok ([], s)
  else .error (.protocol line)
termination_by s.length + line.length
decreasing_by
  have hsplit : (readLine (s.drop (bytes + 2))).1 ++ (readLine (s.drop (bytes + 2))).2
      = s.drop (bytes + 2) := by
    generalize s.drop (bytes + 2) = s2
    induction s2 with
    | nil => simp [readLine]
    | cons b bs ih =>
      by_cases hb : b = 10 <;> simp [readLine, hb, ih]
  have hlen2 : (readLine (s.drop (bytes + 2))).1.length
      + (readLine (s.drop (bytes + 2))).2.length = (s.drop (bytes + 2)).length := by
    rw [← List.length_append, hsplit]
  have hdrop : (s.drop (bytes + 2)).length = s.length - (bytes + 2) :=
    List.length_drop _ _
  omega

/-- Model of `parse_retrieval_rp`. -/
def parse_retrieval_rp (s : List Nat) : Except Err (List Item × List Nat) :=
  let p := readLine s
  parseRetrievalGo p.1 p.2

/-- Model of `parse_version_rp`: returns `line[8 .. n-2]` (panics when the
line is too short for the slice, as the byte-slice in the source would). -/
def parse_version_rp (s : List Nat) : Except Err (List Nat × List Nat) :=
  let p := readLine s
  let n := p.1.length
  if (str "VERSION").isPrefixOf p.1 then
    if 10 ≤ n then .ok (((p.1.drop 8).take (n - 2 - 8)), p.2)
    else .error .panicked
  else .error (.protocol p.1)

/-- Model of `parse_ok_rp`. -/
def parse_ok_rp (noreply : Bool) (s : List Nat) : Except Err (Unit × List Nat) :=
  if noreply then .ok ((), s)
  else
    let p := readLine s
    if p.1 = str "OK\r\n" then .ok ((), p.2) else .error (.protocol p.1)

/-- Model of `parse_delete_rp`. -/
def parse_delete_rp (noreply : Bool) (s : List Nat) : Except Err (Bool × List Nat) :=
  if noreply then .ok (true, s)
  else
    let p := readLine s
    if p.1 = str "DELETED\r\n" then .ok (true, p.2)
    else if p.1 = str "NOT_FOUND\r\n" then .ok (false, p.2)
    else .error (.protocol p.1)

/-- Model of `parse_auth_rp`. -/
def parse_auth_rp (s : List Nat) : Except Err (Unit × List Nat) :=
  let p := readLine s
  if p.1 = str "STORED\r\n" then .ok ((), p.2) else .error (.protocol p.1)

/-- Model of `parse_incr_decr_rp`: `NOT_FOUND` gives `none`, a decimal line
gives `some value`, anything else is a protocol error. -/
def parse_incr_decr_rp (noreply : Bool) (s : List Nat) :
    Except Err (Option Nat × List Nat) :=
  if noreply then .ok (none, s)
  else
    let p := readLine s
    if p.1 = str "NOT_FOUND\r\n" then .ok (none, p.2)
    else
      match parseNat (trimEnd p.1) with
      | some v => .ok (some v, p.2)
      | none => .error (.protocol p.1)

/-- Model of `parse_touch_rp`. -/
def parse_touch_rp (noreply : Bool) (s : List Nat) : Except Err (Bool × List Nat) :=
  if noreply then .ok (true, s)
  else
    let p := readLine s
    if p.1 = str "TOUCHED\r\n" then .ok (true, p.2)
    else if p.1 = str "NOT_FOUND\r\n" then .ok (false, p.2)
    else .error (.protocol p.1)

/-- `HashMap::insert` on the association-list model: overwrite the existing
binding or append a new one. -/
def statsInsert : List (List Nat × List Nat) → List Nat → List Nat →
    List (List Nat × List Nat)
  | [], k, v => [(k, v)]
  | (k', v') :: rest, k, v =>
    if k' = k then (k, v) :: rest else (k', v') :: statsInsert rest k v

/-- Loop of `parse_stats_rp` over the `lines()` adapter: `STAT k v` lines
are accumulated until `END`; stream exhaustion ends the loop successfully. -/
def parseStatsGo (s : List Nat) (acc : List (List Nat × List Nat)) :
    Except Err (List (List Nat × List Nat) × List Nat) :=
  if hs : s = [] then .ok (acc, s)
  else
    let p := readLine s
    let data := stripNL p.1
    if (str "STAT").isPrefixOf data then
      let toks := splitSpaces data
      match unwrapO (toks.get? 1), unwrapO (toks.get? 2) with
      | .ok k, .ok v => parseStatsGo p.2 (statsInsert acc k (trimEnd v))
      | _, _ => .error .panicked
    else if data = str "END" then .ok (acc, p.2)
    else .error (.protocol data)
termination_by s.length
decreasing_by
  have hsplit : (readLine s).1 ++ (readLine s).2 = s := by
    clear hs
    induction s with
    | nil => simp [readLine]
    | cons b bs ih =>
      by_cases hb : b = 10 <;> simp [readLine, hb, ih]
  have hne : (readLine s).1 ≠ [] := by
    cases s with
    | nil => exact absurd rfl hs
    | cons b bs => by_cases hb : b = 10 <;> simp [readLine, hb]
  have := congrArg List.length hsplit
  simp only [List.length_append] at this
  have : (readLine s).1.length ≠ 0 := fun hz => hne (List.eq_nil_of_length_eq_zero hz)
  omega

/-- Model of `parse_stats_rp`. -/
def parse_stats_rp (s : List Nat) :
    Except Err (List (List Nat × List Nat) × List Nat) :=
  parseStatsGo s []

/-- Loop of `parse_lru_crawler_metadump_rp`: `key=` lines until `END`. -/
def parseMetadumpGo (line : List Nat) (s : List Nat) :
    Except Err (List (List Nat) × List Nat) :=
  if hpre : (str "key=").isPrefixOf line then
    let p := readLine s
    match parseMetadumpGo p.1 p.2 with
    | .error e => .error e
    | .ok (items, s2) => .ok (trimEnd line :: items, s2)
  else if line = str "END\r\n" then .ok ([], s)
  else .error (.protocol line)
termination_by s.length + line.length
decreasing_by
  have hsplit : (readLine s).1 ++ (readLine s).2 = s := by
    clear hpre
    induction s with
    | nil => simp [readLine]
    | cons b bs ih =>
      by_cases hb : b = 10 <;> simp [readLine, hb, ih]
  have hlen : (readLine s).1.length + (readLine s).2.length = s.length := by
    rw [← List.length_append, hsplit]
  have hl : 4 ≤ line.length := by
    have := List.isPrefixOf_iff_prefix.mp hpre
    have := this.length_le
    simpa [str] using this
  omega

/-- Model of `parse_lru_crawler_metadump_rp`. -/
def parse_lru_crawler_metadump_rp (s : List Nat) :
    Except Err (List (List Nat) × List Nat) :=
  let p := readLine s
  parseMetadumpGo p.1 p.2

/-- Loop of `parse_lru_crawler_mgdump_rp`: `mg ` lines until `EN`. -/
def parseMgdumpGo (line : List Nat) (s : List Nat) :
    Except Err (List (List Nat) × List Nat) :=
  if hpre : (str "mg ").isPrefixOf line then
    match unwrapO ((splitSpaces line).get? 1) with
    | .error e => .error e
    | .ok k =>
      let p := readLine s
      match parseMgdumpGo p.1 p.2 with
      | .error e => .error e
      | .ok (items, s2) => .ok (trimEnd k :: items, s2)
  else if line = str "EN\r\n" then .ok ([], s)
  else .error (.protocol line)
termination_by s.length + line.length
decreasing_by
  have hsplit : (readLine s).1 ++ (readLine s).2 = s := by
    clear hpre
    induction s with
    | nil => simp [readLine]
    | cons b bs ih =>
      by_cases hb : b = 10 <;> simp [readLine, hb, ih]
  have hlen : (readLine s).1.length + (readLine s).2.length = s.length := by
    rw [← List.length_append, hsplit]
  have hl : 3 ≤ line.length := by
    have := List.isPrefixOf_iff_prefix.mp hpre
    have := this.length_le
    simpa [str] using this
  omega

/-- Model of `parse_lru_crawler_mgdump_rp`. -/
def parse_lru_crawler_mgdump_rp (s : List Nat) :
    Except Err (List (List Nat) × List Nat) :=
  let p := readLine s
  parseMgdumpGo p.1 p.2

/-- Model of `parse_mn_rp`. -/
def parse_mn_rp (s : List Nat) : Except Err (Unit × List Nat) :=
  let p := readLine s
  if p.1 = str "MN\r\n" then .ok ((), p.2) else .error (.protocol p.1)

/-- Model of `parse_me_rp`: returns `line[3 .. len-2]` after an `ME` status
(panicking when the line is too short for the slice). -/
def parse_me_rp (s : List Nat) : Except Err (Option (List Nat) × List Nat) :=
  let p := readLine s
  if p.1 = str "EN\r\n" then .ok (none, p.2)
  else if (str "ME").isPrefixOf p.1 then
    if 5 ≤ p.1.length then .ok (some ((p.1.drop 3).take (p.1.length - 2 - 3)), p.2)
    else .error .panicked
  else .error (.protocol p.1)

/-- Fresh `MgItem` before the flag loop of `parse_mg_rp` runs. -/
def mgInit (success : Bool) : MgItem := { success := success }

/-- One iteration of the flag loop of `parse_mg_rp`: the token's leading
byte selects the field, the remainder is the argument. An unrecognised
leading byte hits the source's `unreachable!` (a panic), as does an empty
token (`&flag[..1]` out of bounds) or an unparsable numeric argument. -/
def mgFlagStep (it : MgItem) : List Nat → Except Err MgItem
  | [] => .error .panicked
  | c :: f =>
    if c = 98 then .ok { it with base64_key := true }
    else if c = 99 then
      match parseNat f with
      | some v => .ok { it with cas := some v }
      | none => .error .panicked
    else if c = 102 then
      match parseNat f with
      | some v => .ok { it with flags := some v }
      | none => .error .panicked
    else if c = 104 then
      match parseNat f with
      | some v => .ok { it with hit := some v }
      | none => .error .panicked
    else if c = 107 then .ok { it with key := some f }
    else if c = 108 then
      match parseInt f with
      | some v => .ok { it with last_access_ttl := some v }
      | none => .error .panicked
    else if c = 79 then .ok { it with opaq := some f }
    else if c = 115 then
      match parseNat f with
      | some v => .ok { it with size := some v }
      | none => .error .panicked
    else if c = 116 then
      match parseInt f with
      | some v => .ok { it with ttl := some v }
      | none => .error .panicked
    else if c = 87 then .ok { it with won_recache := true }
    else if c = 88 then .ok { it with stale := true }
    else if c = 90 then .ok { it with already_win := true }
    else .error .panicked

/-- The flag loop of `parse_mg_rp` over the remaining space-separated
tokens. -/
def mgFlags : List (List Nat) → MgItem → Except Err MgItem
  | [], it => .ok it
  | t :: ts, it =>
    match mgFlagStep it t with
    | .error e => .error e
    | .ok it2 => mgFlags ts it2

/-- Model of `parse_mg_rp`: `VA n` / `HD` give success, `EN` failure, any
other status is a protocol error; a `VA` payload of `n` bytes is read with
`read_exact (n + 2)` and truncated. -/
def parse_mg_rp (s : List Nat) : Except Err (MgItem × List Nat) :=
  let p := readLine s
  let toks := splitSpaces (trimEnd p.1)
  if (str "VA").isPrefixOf p.1 then
    match unwrapO (toks.get? 1) with
    | .error e => .error e
    | .ok dtok =>
      match unwrapO (parseNat dtok) with
      | .error e => .error e
      | .ok a =>
        match mgFlags (toks.drop 2) (mgInit true) with
        | .error e => .error e
        | .ok it =>
          match readExact (a + 2) p.2 with
          | .error e => .error e
          | .ok (buf, s2) => .ok ({ it with data_block := some (buf.take a) }, s2)
  else if (str "HD").isPrefixOf p.1 then
    (mgFlags (toks.drop 1) (mgInit true)).map (fun it => (it, p.2))
  else if (str "EN").isPrefixOf p.1 then
    (mgFlags (toks.drop 1) (mgInit false)).map (fun it => (it, p.2))
  else .error (.protocol p.1)

/-- Fresh `MsItem` before the flag loop of `parse_ms_rp` runs. -/
def msInit (success : Bool) : MsItem := { success := success }

/-- One iteration of the flag loop of `parse_ms_rp`. -/
def msFlagStep (it : MsItem) : List Nat → Except Err MsItem
  | [] => .error .panicked
  | c :: f =>
    if c = 99 then
      match parseNat f with
      | some v => .ok { it with cas := some v }
      | none => .error .panicked
    else if c = 107 then .ok { it with key := some f }
    else if c = 79 then .ok { it with opaq := some f }
    else if c = 115 then
      match parseNat f with
      | some v => .ok { it with size := some v }
      | none => .error .panicked
    else if c = 98 then .ok { it with base64_key := true }
    else .error .panicked

/-- The flag loop of `parse_ms_rp`. -/
def msFlags : List (List Nat) → MsItem → Except Err MsItem
  | [], it => .ok it
  | t :: ts, it =>
    match msFlagStep it t with
    | .error e => .error e
    | .ok it2 => msFlags ts it2

/-- Model of `parse_ms_rp`: `HD` success; `NS`/`EX`/`NF` failure; any other
status a protocol error. -/
def parse_ms_rp (s : List Nat) : Except Err (MsItem × List Nat) :=
  let p := readLine s
  if (str "HD").isPrefixOf p.1 then
    (msFlags ((splitSpaces (trimEnd p.1)).drop 1) (msInit true)).map (fun it => (it, p.2))
  else if (str "NS").isPrefixOf p.1 ∨ (str "EX").isPrefixOf p.1 ∨
      (str "NF").isPrefixOf p.1 then
    (msFlags ((splitSpaces (trimEnd p.1)).drop 1) (msInit false)).map (fun it => (it, p.2))
  else .error (.protocol p.1)

/-- Fresh `MdItem` before the flag loop of `parse_md_rp` runs. -/
def mdInit (success : Bool) : MdItem := { success := success }

/-- One iteration of the flag loop of `parse_md_rp`. -/
def mdFlagStep (it : MdItem) : List Nat → Except Err MdItem
  | [] => .error .panicked
  | c :: f =>
    if c = 107 then .ok { it with key := some f }
    else if c = 79 then .ok { it with opaq := some f }
    else if c = 98 then .ok { it with base64_key := true }
    else .error .panicked

/-- The flag loop of `parse_md_rp`. -/
def mdFlags : List (List Nat) → MdItem → Except Err MdItem
  | [], it => .ok it
  | t :: ts, it =>
    match mdFlagStep it t with
    | .error e => .error e
    | .ok it2 => mdFlags ts it2

/-- Model of `parse_md_rp`: `HD` success; `NF`/`EX` failure; any other
status a protocol error. -/
def parse_md_rp (s : List Nat) : Except Err (MdItem × List Nat) :=
  let p := readLine s
  if (str "HD").isPrefixOf p.1 then
    (mdFlags ((splitSpaces (trimEnd p.1)).drop 1) (mdInit true)).map (fun it => (it, p.2))
  else if (str "NF").isPrefixOf p.1 ∨ (str "EX").isPrefixOf p.1 then
    (mdFlags ((splitSpaces (trimEnd p.1)).drop 1) (mdInit false)).map (fun it => (it, p.2))
  else .error (.protocol p.1)

/-- Fresh `MaItem` before the flag loop of `parse_ma_rp` runs. -/
def maInit (success : Bool) : MaItem := { success := success }

/-- One iteration of the flag loop of `parse_ma_rp`. -/
def maFlagStep (it : MaItem) : List Nat → Except Err MaItem
  | [] => .error .panicked
  | c :: f =>
    if c = 79 then .ok { it with opaq := some f }
    else if c = 116 then
      match parseInt f with
      | some v => .ok { it with ttl := some v }
      | none => .error .panicked
    else if c = 99 then
      match parseNat f with
      | some v => .ok { it with cas := some v }
      | none => .error .panicked
    else if c = 107 then .ok { it with key := some f }
    else if c = 98 then .ok { it with base64_key := true }
    else .error .panicked

/-- The flag loop of `parse_ma_rp`. -/
def maFlags : List (List Nat) → MaItem → Except Err MaItem
  | [], it => .ok it
  | t :: ts, it =>
    match maFlagStep it t with
    | .error e => .error e
    | .ok it2 => maFlags ts it2

/-- A flag token whose leading byte is `c` occurs in the token list. -/
def hasFlagTok (c : Nat) (toks : List (List Nat)) : Prop :=
  ∃ t ∈ toks, t.head? = some c

instance (c : Nat) (toks : List (List Nat)) : Decidable (hasFlagTok c toks) :=
  List.decidableBEx _ toks

/-- Model of `parse_ma_rp`: `VA n` / `HD` success, `NS`/`EX`/`NF` failure,
anything else a protocol error; the numeric `VA` payload is read as a
line, truncated to `n` bytes and parsed (panicking when non-numeric). -/
def parse_ma_rp (s : List Nat) : Except Err (MaItem × List Nat) :=
  let p := readLine s
  let toks := splitSpaces (trimEnd p.1)
  if (str "VA").isPrefixOf p.1 then
    match unwrapO (toks.get? 1) with
    | .error e => .error e
    | .ok dtok =>
      match unwrapO (parseNat dtok) with
      | .error e => .error e
      | .ok a =>
        match maFlags (toks.drop 2) (maInit true) with
        | .error e => .error e
        | .ok it =>
          let q := readLine p.2
          match unwrapO (parseNat (q.1.take a)) with
          | .error e => .error e
          | .ok n => .ok ({ it with number := some n }, q.2)
  else if (str "HD").isPrefixOf p.1 then
    (maFlags (toks.drop 1) (maInit true)).map (fun it => (it, p.2))
  else if (str "NS").isPrefixOf p.1 ∨ (str "EX").isPrefixOf p.1 ∨
      (str "NF").isPrefixOf p.1 then
    (maFlags (toks.drop 1) (maInit false)).map (fun it => (it, p.2))
  else .error (.protocol p.1)

/-- Model of `build_storage_cmd`:
`verb key flags exptime bytecount [cas] [noreply]\r\n<data>\r\n`. -/
def build_storage_cmd (command_name key : List Nat) (flags : Nat) (exptime : Int)
    (cas_unique : Option Nat) (noreply : Bool) (data_block : List Nat) : List Nat :=
  command_name ++ str " " ++ key ++ str " " ++ natDec flags ++ str " " ++
    intDec exptime ++ str " " ++ natDec data_block.length ++
    (match cas_unique with
     | some x => str " " ++ natDec x
     | none => []) ++
    (if noreply then str " noreply" else []) ++ str "\r\n" ++
    data_block ++ str "\r\n"

/-- Model of `build_retrieval_cmd`: `verb [exptime ]key1 key2 ...\r\n`. -/
def build_retrieval_cmd (command_name : List Nat) (exptime : Option Int)
    (keys : List (List Nat)) : List Nat :=
  command_name ++ str " " ++
    (match exptime with
     | some x => intDec x ++ str " "
     | none => []) ++
    (List.intercalate (str " ") keys) ++ str "\r\n"

/-- Model of `build_delete_cmd`. -/
def build_delete_cmd (key : List Nat) (noreply : Bool) : List Nat :=
  str "delete " ++ key ++ (if noreply then str " noreply" else []) ++ str "\r\n"

/-- Model of `build_incr_decr_cmd`. -/
def build_incr_decr_cmd (command_name key : List Nat) (value : Nat)
    (noreply : Bool) : List Nat :=
  command_name ++ str " " ++ key ++ str " " ++ natDec value ++
    (if noreply then str " noreply" else []) ++ str "\r\n"

/-- Model of `build_touch_cmd`. -/
def build_touch_cmd (key : List Nat) (exptime : Int) (noreply : Bool) : List Nat :=
  str "touch " ++ key ++ str " " ++ intDec exptime ++
    (if noreply then str " noreply" else []) ++ str "\r\n"

/-- Model of `build_flush_all_cmd`. -/
def build_flush_all_cmd (exptime : Option Int) (noreply : Bool) : List Nat :=
  str "flush_all" ++
    (match exptime with
     | some x => str " " ++ intDec x
     | none => []) ++
    (if noreply then str " noreply" else []) ++ str "\r\n"

/-- Model of `build_cache_memlimit_cmd`. -/
def build_cache_memlimit_cmd (limit : Nat) (noreply : Bool) : List Nat :=
  str "cache_memlimit " ++ natDec limit ++
    (if noreply then str " noreply" else []) ++ str "\r\n"

/-- Model of `build_auth_cmd`: the auth pseudo-set
`set _ _ _ <len>\r\nuser pass\r\n`. -/
def build_auth_cmd (username password : List Nat) : List Nat :=
  str "set _ _ _ " ++ natDec (username.length + password.length + 1) ++
    str "\r\n" ++ username ++ str " " ++ password ++ str "\r\n"

/-- Model of `build_version_cmd`. -/
def build_version_cmd : List Nat := str "version\r\n"

/-- Model of `build_mn_cmd`. -/
def build_mn_cmd : List Nat := str "mn\r\n"

/-- Model of `build_quit_cmd`. -/
def build_quit_cmd : List Nat := str "quit\r\n"

/-- Wrap a decoded value into its `PipelineResponse` variant. -/
def liftRp (f : α → PipelineResponse) :
    Except Err (α × List Nat) → Except Err (PipelineResponse × List Nat) :=
  Except.map (fun x => (f x.1, x.2))

/-- Dispatch of one already-encoded command inside `execute_cmd`: the
decoder is selected purely from the encoded bytes, by the source's
if/else chain (prefix tests, space counting for the retrieval family and
`noreply` suffix tests), and run against the response stream `s`.
The final `else` models the source's `assert!(cmd.starts_with(b"me "))`. -/
def execOne (cmd : List Nat) (s : List Nat) :
    Except Err (PipelineResponse × List Nat) :=
  if (str "gets ").isPrefixOf cmd ∨ (str "get ").isPrefixOf cmd ∨
      (str "gats ").isPrefixOf cmd ∨ (str "gat ").isPrefixOf cmd then
    if ((str "gat").isPrefixOf cmd ∧ cmd.count 32 = 2) ∨
        ((str "get").isPrefixOf cmd ∧ cmd.count 32 = 1) then
      liftRp (fun is => .OptionItem is.getLast?) (parse_retrieval_rp s)
    else
      liftRp .VecItem (parse_retrieval_rp s)
  else if (str "set _ _ _ ").isPrefixOf cmd then
    liftRp (fun _ => .Unit) (parse_auth_rp s)
  else if (str "set ").isPrefixOf cmd ∨ (str "add ").isPrefixOf cmd ∨
      (str "replace ").isPrefixOf cmd ∨ (str "append ").isPrefixOf cmd ∨
      (str "prepend ").isPrefixOf cmd ∨ (str "cas ").isPrefixOf cmd then
    liftRp .Bool (parse_storage_rp ((str "noreply").isSuffixOf (cmd.takeWhile (· ≠ 13))) s)
  else if cmd = build_version_cmd then
    liftRp .String (parse_version_rp s)
  else if (str "delete ").isPrefixOf cmd then
    liftRp .Bool (parse_delete_rp ((str "noreply\r\n").isSuffixOf cmd) s)
  else if (str "incr ").isPrefixOf cmd ∨ (str "decr ").isPrefixOf cmd then
    liftRp .Value (parse_incr_decr_rp ((str "noreply\r\n").isSuffixOf cmd) s)
  else if (str "touch ").isPrefixOf cmd then
    liftRp .Bool (parse_touch_rp ((str "noreply\r\n").isSuffixOf cmd) s)
  else if cmd = build_quit_cmd ∨ (str "shutdown").isPrefixOf cmd then
    .ok (.Unit, s)
  else if (str "flush_all").isPrefixOf cmd ∨ (str "cache_memlimit ").isPrefixOf cmd then
    liftRp (fun _ => .Unit) (parse_ok_rp ((str "noreply\r\n").isSuffixOf cmd) s)
  else if (str "slabs automove ").isPrefixOf cmd ∨ (str "slabs reassign ").isPrefixOf cmd ∨
      (str "lru_crawler sleep ").isPrefixOf cmd ∨ (str "lru_crawler crawl ").isPrefixOf cmd ∨
      (str "lru_crawler tocrawl ").isPrefixOf cmd ∨
      cmd = str "lru_crawler enable\r\n" ∨ cmd = str "lru_crawler disable\r\n" then
    liftRp (fun _ => .Unit) (parse_ok_rp false s)
  else if cmd = build_mn_cmd then
    liftRp (fun _ => .Unit) (parse_mn_rp s)
  else if (str "stats").isPrefixOf cmd then
    liftRp .HashMap (parse_stats_rp s)
  else if (str "lru_crawler metadump ").isPrefixOf cmd then
    liftRp .VecString (parse_lru_crawler_metadump_rp s)
  else if (str "lru_crawler mgdump ").isPrefixOf cmd then
    liftRp .VecString (parse_lru_crawler_mgdump_rp s)
  else if (str "mg ").isPrefixOf cmd then
    liftRp .MetaGet (parse_mg_rp s)
  else if (str "ms ").isPrefixOf cmd then
    liftRp .MetaSet (parse_ms_rp s)
  else if (str "md ").isPrefixOf cmd then
    liftRp .MetaDelete (parse_md_rp s)
  else if (str "ma ").isPrefixOf cmd then
    liftRp .MetaArithmetic (parse_ma_rp s)
  else if (str "lru ").isPrefixOf cmd then
    liftRp (fun _ => .Unit) (parse_ok_rp false s)
  else if (str "me ").isPrefixOf cmd then
    liftRp .OptionString (parse_me_rp s)
  else .error .panicked

/-- Model of `execute_cmd`: the batch write is pure I/O (the response
stream `s` is the model's input); each command is then decoded in input
order, the first decode error aborting the whole call. -/
def execute_cmd : List (List Nat) → List Nat →
    Except Err (List PipelineResponse × List Nat)
  | [], s => .ok ([], s)
  | c :: cs, s =>
    match execOne c s with
    | .error e => .error e
    | .ok (r, s1) =>
      match execute_cmd cs s1 with
      | .error e => .error e
      | .ok (rs, s2) => .ok (r :: rs, s2)

/-- One round of the (reflected) CRC-32 bit loop. -/
def crc32Step (c : Nat) : Nat :=
  if c % 2 = 1 then (c / 2) ^^^ 0xEDB88320 else c / 2

/-- Fold one byte into the CRC-32 state. -/
def crc32Byte (c b : Nat) : Nat := crc32Step^[8] (c ^^^ b)

/-- CRC-32 (IEEE, as computed by `crc32fast::hash`). -/
def crc32 (key : List Nat) : Nat :=
  (key.foldl crc32Byte 0xFFFFFFFF) ^^^ 0xFFFFFFFF

/-- Abstract model of one (unsharded) connection: the behaviours of its
keyed operations, as opaque functions of the forwarded arguments. -/
structure ShardConn (ρ σ τ : Type) where
  opGet : List Nat → ρ
  opSet : List Nat → Nat → Int → Bool → List Nat → σ
  opDelete : List Nat → Bool → τ

/-- The CRC32 sharding router: a fixed list of connections. -/
structure ClientCrc32 (ρ σ τ : Type) where
  conns : List (ShardConn ρ σ τ)

/-- Model of `ClientCrc32::new`: stores the vector as given, with no
validation. -/
def ClientCrc32.new (conns : List (ShardConn ρ σ τ)) : ClientCrc32 ρ σ τ :=
  ⟨conns⟩

/-- Model of `ClientCrc32::get`: `self.0[crc32fast::hash(key) % size]`.
When the connection list is empty the remainder-by-zero / out-of-bounds
index panics, modelled as `Err.panicked`. -/
def ClientCrc32.get (c : ClientCrc32 ρ σ τ) (key : List Nat) : Except Err ρ :=
  let size := c.conns.length
  if h : crc32 key % size < size then
    .ok ((c.conns.get ⟨crc32 key % size, h⟩).opGet key)
  else .error .panicked

/-- Model of `ClientCrc32::set` (same routing, forwarding all arguments). -/
def ClientCrc32.set (c : ClientCrc32 ρ σ τ) (key : List Nat) (flags : Nat)
    (exptime : Int) (noreply : Bool) (data_block : List Nat) : Except Err σ :=
  let size := c.conns.length
  if h : crc32 key % size < size then
    .ok ((c.conns.get ⟨crc32 key % size, h⟩).opSet key flags exptime noreply data_block)
  else .error .panicked

/-- Model of `ClientCrc32::delete` (same routing, forwarding all
arguments). -/
def ClientCrc32.delete (c : ClientCrc32 ρ σ τ) (key : List Nat)
    (noreply : Bool) : Except Err τ :=
  let size := c.conns.length
  if h : crc32 key % size < size then
    .ok ((c.conns.get ⟨crc32 key % size, h⟩).opDelete key noreply)
  else .error .panicked

/-! ## Supporting lemmas about the wire primitives -/

theorem readLine_split (s : List Nat) : (readLine s).1 ++ (readLine s).2 = s := by
  induction s with
  | nil => simp [readLine]
  | cons b bs ih => by_cases hb : b = 10 <;> simp [readLine, hb, ih]

theorem readLine_append (a b : List Nat) (ha : 10 ∉ a) :
    readLine (a ++ 10 :: b) = (a ++ [10], b) := by
  induction a with
  | nil => simp [readLine]
  | cons x xs ih =>
    have hx : x ≠ 10 := fun h => ha (h ▸ List.mem_cons_self x xs)
    have := ih (fun h => ha (List.mem_cons_of_mem x h))
    simp [readLine, hx, this]

theorem natDecAux_congr (f1 : Nat) : ∀ f2 n, n < f1 → n < f2 →
    natDecAux f1 n = natDecAux f2 n := by
  induction f1 with
  | zero => omega
  | succ f ih =>
    intro f2 n h1 h2
    match f2, h2 with
    | f2 + 1, _ =>
      by_cases hn : n < 10
      · simp [natDecAux, hn]
      · have hd : n / 10 < n := Nat.div_lt_self (by omega) (by omega)
        simp only [natDecAux, if_neg hn]
        rw [ih f2 (n / 10) (by omega) (by omega)]

theorem natDec_eq (n : Nat) :
    natDec n = if n < 10 then [48 + n] else natDec (n / 10) ++ [48 + n % 10] := by
  by_cases hn : n < 10
  · simp [natDec, natDecAux, hn]
  · rw [if_neg hn]
    show natDecAux (n + 1) n = natDecAux (n / 10 + 1) (n / 10) ++ [48 + n % 10]
    rw [show natDecAux (n + 1) n
        = if n < 10 then [48 + n] else natDecAux n (n / 10) ++ [48 + n % 10] from rfl]
    rw [if_neg hn, natDecAux_congr n (n / 10 + 1) (n / 10)
      (Nat.div_lt_self (by omega) (by omega)) (by omega)]

theorem natDec_digits (n : Nat) : ∀ x ∈ natDec n, 48 ≤ x ∧ x ≤ 57 := by
  induction n using Nat.strong_induction_on with
  | _ n ih =>
    rw [natDec_eq]
    by_cases hn : n < 10
    · simp [hn]; omega
    · have hd : n / 10 < n := Nat.div_lt_self (by omega) (by omega)
      have hm : n % 10 < 10 := Nat.mod_lt _ (by omega)
      simp only [if_neg hn, List.mem_append, List.mem_singleton]
      rintro x (hx | rfl)
      · exact ih _ hd x hx
      · omega

theorem natDec_ne_nil (n : Nat) : natDec n ≠ [] := by
  rw [natDec_eq]
  by_cases hn : n < 10 <;> simp [hn]

theorem natDec_getLast? (n : Nat) :
    ∃ d, (natDec n).getLast? = some d ∧ 48 ≤ d ∧ d ≤ 57 := by
  rw [natDec_eq]
  by_cases hn : n < 10
  · exact ⟨48 + n, by simp [hn], by omega, by omega⟩
  · refine ⟨48 + n % 10, ?_, by omega, by omega⟩
    have hm : n % 10 < 10 := Nat.mod_lt _ (by omega)
    simp [hn, List.getLast?_concat]

theorem intDec_getLast? (i : Int) :
    ∃ d, (intDec i).getLast? = some d ∧ 48 ≤ d ∧ d ≤ 57 := by
  unfold intDec
  by_cases hi : i < 0
  · obtain ⟨d, hd, h1, h2⟩ := natDec_getLast? i.natAbs
    refine ⟨d, ?_, h1, h2⟩
    rw [if_pos hi, List.getLast?_cons, hd]
    simp [Option.iget]
  · simpa [hi] using natDec_getLast? i.toNat

theorem intDec_digits (i : Int) : ∀ x ∈ intDec i, (48 ≤ x ∧ x ≤ 57) ∨ x = 45 := by
  unfold intDec
  by_cases hi : i < 0
  · simp only [if_pos hi, List.mem_cons]
    rintro x (rfl | hx)
    · right; rfl
    · left; exact natDec_digits _ x hx
  · simp only [if_neg hi]
    intro x hx
    left; exact natDec_digits _ x hx

theorem splitSpaces_ne_nil (l : List Nat) : splitSpaces l ≠ [] := by
  cases l with
  | nil => simp [splitSpaces]
  | cons b bs => by_cases hb : b = 32 <;> simp [splitSpaces, hb]

theorem splitSpaces_no_space (a : List Nat) (ha : 32 ∉ a) : splitSpaces a = [a] := by
  induction a with
  | nil => rfl
  | cons x xs ih =>
    have hx : x ≠ 32 := fun h => ha (h ▸ List.mem_cons_self x xs)
    have := ih (fun h => ha (List.mem_cons_of_mem x h))
    simp [splitSpaces, hx, this, List.headI]

theorem splitSpaces_append (a b : List Nat) (ha : 32 ∉ a) :
    splitSpaces (a ++ 32 :: b) = a :: splitSpaces b := by
  induction a with
  | nil => simp [splitSpaces]
  | cons x xs ih =>
    have hx : x ≠ 32 := fun h => ha (h ▸ List.mem_cons_self x xs)
    have hih := ih (fun h => ha (List.mem_cons_of_mem x h))
    simp only [List.cons_append, splitSpaces, if_neg hx, List.append_eq]
    rw [hih]
    simp [List.headI]

theorem dropWhile_append_of_all {p : Nat → Bool} (a b : List Nat)
    (ha : ∀ x ∈ a, p x = true) :
    List.dropWhile p (a ++ b) = List.dropWhile p b := by
  induction a with
  | nil => rfl
  | cons x xs ih =>
    have hx := ha x (List.mem_cons_self x xs)
    simp only [List.cons_append, List.dropWhile_cons, hx, if_pos]
    exact ih (fun y hy => ha y (List.mem_cons_of_mem x hy))

theorem trimEnd_append (l w : List Nat) (hw : ∀ x ∈ w, isWs x = true)
    (d : Nat) (hl : l.getLast? = some d) (hd : isWs d = false) :
    trimEnd (l ++ w) = l := by
  unfold trimEnd
  rw [List.reverse_append]
  rw [dropWhile_append_of_all w.reverse l.reverse (by simpa using hw)]
  obtain ⟨l', rfl⟩ : ∃ l', l = l' ++ [d] := by
    rcases List.eq_nil_or_concat l with rfl | ⟨l', x, rfl⟩
    · simp at hl
    · refine ⟨l', ?_⟩
      rw [List.concat_eq_append] at hl ⊢
      rw [List.getLast?_concat] at hl
      obtain rfl : x = d := by simpa using hl
      rfl
  simp [List.reverse_append, List.dropWhile_cons, hd]

theorem parseDigits_append (a b : List Nat) : ∀ acc,
    parseDigits (a ++ b) acc =
      match parseDigits a acc with
      | some acc2 => parseDigits b acc2
      | none => none := by
  induction a with
  | nil => intro acc; rfl
  | cons x xs ih =>
    intro acc
    by_cases hx : 48 ≤ x ∧ x ≤ 57
    · simp only [List.cons_append, parseDigits, if_pos hx]
      exact ih _
    · simp only [List.cons_append, parseDigits, if_neg hx]

theorem parseDigits_natDec (n : Nat) : ∀ acc,
    parseDigits (natDec n) acc = some (acc * 10 ^ (natDec n).length + n) := by
  induction n using Nat.strong_induction_on with
  | _ n ih =>
    intro acc
    rw [natDec_eq]
    by_cases hn : n < 10
    · rw [if_pos hn]
      simp only [parseDigits, List.length_singleton]
      rw [if_pos (by omega)]
      simp only [parseDigits, Option.some.injEq, pow_one]
      omega
    · rw [if_neg hn]
      have hd : n / 10 < n := Nat.div_lt_self (by omega) (by omega)
      rw [parseDigits_append, ih _ hd acc]
      have hm : n % 10 < 10 := Nat.mod_lt _ (by omega)
      simp only [parseDigits]
      rw [if_pos (by omega)]
      simp only [parseDigits, List.length_append, List.length_singleton]
      congr 1
      rw [pow_succ]
      have : 48 + n % 10 - 48 = n % 10 := by omega
      rw [this]
      ring_nf
      omega

theorem parseNat_natDec (n : Nat) : parseNat (natDec n) = some n := by
  obtain ⟨b, bs, hb⟩ : ∃ b bs, natDec n = b :: bs := by
    cases hnd : natDec n with
    | nil => exact absurd hnd (natDec_ne_nil n)
    | cons b bs => exact ⟨b, bs, rfl⟩
  have hdig := natDec_digits n b (hb ▸ List.mem_cons_self b bs)
  have hne : b ≠ 43 := by omega
  rw [hb]
  simp only [parseNat, if_neg hne]
  have := parseDigits_natDec n 0
  rw [hb] at this
  simpa using this

theorem takeWhile_ne13_append (a b : List Nat) (ha : 13 ∉ a) :
    (a ++ 13 :: b).takeWhile (fun x => x ≠ 13) = a := by
  induction a with
  | nil => simp [List.takeWhile_cons]
  | cons x xs ih =>
    have hx : x ≠ 13 := fun h => ha (h ▸ List.mem_cons_self x xs)
    have h2 := ih (fun h => ha (List.mem_cons_of_mem x h))
    simp only [List.cons_append, List.takeWhile_cons, ne_eq, decide_not] at h2 ⊢
    simp [hx, h2]

theorem isPrefixOf_append_cancel (c a b : List Nat) :
    (c ++ a).isPrefixOf (c ++ b) = a.isPrefixOf b := by
  induction c with
  | nil => rfl
  | cons x xs ih => simp [List.isPrefixOf, ih]

theorem isPrefixOf_self_append (a b : List Nat) : a.isPrefixOf (a ++ b) = true :=
  List.isPrefixOf_iff_prefix.mpr (List.prefix_append a b)

theorem isSuffixOf_append_cancel (w l t : List Nat) :
    (w ++ t).isSuffixOf (l ++ t) = w.isSuffixOf l := by
  simp only [List.isSuffixOf, List.reverse_append, isPrefixOf_append_cancel]

theorem isSuffixOf_append_self (w l : List Nat) : w.isSuffixOf (l ++ w) = true := by
  simp only [List.isSuffixOf, List.reverse_append, isPrefixOf_self_append]

theorem isSuffixOf_ne_getLast (w l : List Nat) (d e : Nat)
    (hw : w.getLast? = some e) (hl : l.getLast? = some d) (hne : d ≠ e) :
    w.isSuffixOf l = false := by
  by_contra hc
  have hsuf : w <:+ l := by
    have : w.isSuffixOf l = true := by
      cases hcc : w.isSuffixOf l with
      | true => rfl
      | false => exact absurd hcc hc
    exact List.isSuffixOf_iff_suffix.mp this
  obtain ⟨t, rfl⟩ := hsuf
  rw [List.getLast?_append_of_ne_nil t (by rintro rfl; simp at hw), hw] at hl
  exact hne (by simpa using hl.symm)

theorem parseRetrievalGo_end (s : List Nat) :
    parseRetrievalGo (str "END\r\n") s = .ok ([], s) := by
  rw [parseRetrievalGo]
  rw [show ((str "VALUE").isPrefixOf (str "END\r\n")) = false from by decide]
  simp

theorem readLine_concrete (a s : List Nat) (ha : 10 ∉ a) :
    readLine ((a ++ [10]) ++ s) = (a ++ [10], s) := by
  rw [List.append_assoc]
  simpa using readLine_append a s ha

theorem readExact_two (x y : Nat) (s : List Nat) :
    readExact 2 (x :: y :: s) = .ok ([x, y], s) := by
  simp [readExact]

theorem isPrefixOf_extend (a b r : List Nat) (h : a.isPrefixOf b = true) :
    a.isPrefixOf (b ++ r) = true := by
  rw [List.isPrefixOf_iff_prefix] at h ⊢
  exact h.trans (List.prefix_append b r)

theorem parse_retrieval_rp_end : parse_retrieval_rp (str "END\r\n") = .ok ([], []) := by
  unfold parse_retrieval_rp
  rw [show readLine (str "END\r\n") = (str "END\r\n", []) from by decide]
  exact parseRetrievalGo_end []

theorem append_ne_nil_right (a b : List Nat) (h : b ≠ []) : a ++ b ≠ [] := by
  cases a <;> simp [h]

theorem isSuffixOf_extend (w a b : List Nat) (h : w.isSuffixOf b = true) :
    w.isSuffixOf (a ++ b) = true := by
  rw [List.isSuffixOf_iff_suffix] at h ⊢
  exact h.trans (List.suffix_append a b)

theorem takeWhile13_append (a b : List Nat) (ha : 13 ∉ a) :
    (a ++ b).takeWhile (fun x => x ≠ 13) = a ++ b.takeWhile (fun x => x ≠ 13) := by
  induction a with
  | nil => simp
  | cons x xs ih =>
    have hx : x ≠ 13 := fun h => ha (h ▸ List.mem_cons_self x xs)
    have h2 := ih (fun h => ha (List.mem_cons_of_mem x h))
    simp only [List.cons_append, List.takeWhile_cons, ne_eq, decide_not] at h2 ⊢
    simp [hx, h2]

theorem isPrefixOf_append_space (W : List Nat) (hW : 32 ∉ W) : ∀ (r rest : List Nat),
    W.isPrefixOf (r ++ 32 :: rest) = W.isPrefixOf r := by
  induction W with
  | nil => intro r rest; simp [List.isPrefixOf]
  | cons a as ih =>
    intro r rest
    cases r with
    | nil =>
      have ha : a ≠ 32 := fun h => hW (h ▸ List.mem_cons_self a as)
      simp [List.isPrefixOf, ha]
    | cons b bs =>
      simp only [List.cons_append, List.isPrefixOf, List.append_eq]
      rw [ih (fun h => hW (List.mem_cons_of_mem a h)) bs rest]

/-- Whether `delete <key>` ends in `noreply` depends only on the key: the
literal `delete ` ends in a space and `noreply` contains none, so the match
can never straddle the boundary. -/
theorem noreply_sfx_delete (key : List Nat) :
    (str "noreply").isSuffixOf (str "delete " ++ key)
      = (str "noreply").isSuffixOf key := by
  show ((str "noreply").reverse.isPrefixOf (str "delete " ++ key).reverse) = _
  rw [List.reverse_append]
  rw [show (str "delete ").reverse = 32 :: [101, 116, 101, 108, 101, 100] from by decide]
  rw [isPrefixOf_append_space _ (by decide)]
  rfl

theorem natDec_cons (n : Nat) : ∃ d t, natDec n = d :: t ∧ 48 ≤ d ∧ d ≤ 57 := by
  cases hnd : natDec n with
  | nil => exact absurd hnd (natDec_ne_nil n)
  | cons d t =>
    exact ⟨d, t, rfl, natDec_digits n d (hnd ▸ List.mem_cons_self d t)⟩

theorem not13_natDec (n : Nat) : 13 ∉ natDec n := fun h => by
  have := natDec_digits n 13 h; omega

theorem not13_intDec (i : Int) : 13 ∉ intDec i := fun h => by
  rcases intDec_digits i 13 h with h2 | h2 <;> omega

theorem sfx_noreply_last_digit (l : List Nat) (d : Nat)
    (hl : l.getLast? = some d) (hd : d ≤ 57) :
    (str "noreply").isSuffixOf l = false :=
  isSuffixOf_ne_getLast _ _ d 121 (by decide) hl (by omega)

/-- `[95,32,95,32,95,32]` (the tail `_ _ _ ` of the auth sentinel) is never
a prefix of `key ++ " " ++ digits…` when the key contains no space. -/
theorem auth_tail_false (key R2 : List Nat) (flags : Nat) (hk : 32 ∉ key) :
    List.isPrefixOf [95, 32, 95, 32, 95, 32] (key ++ (str " " ++ (natDec flags ++ R2)))
      = false := by
  obtain ⟨d, t, hdt, h48, h57⟩ := natDec_cons flags
  cases key with
  | nil =>
    rw [show ([] : List Nat) ++ (str " " ++ (natDec flags ++ R2))
        = 32 :: (natDec flags ++ R2) from rfl]
    simp [List.isPrefixOf]
  | cons k1 ktl =>
    by_cases h1 : k1 = 95
    · subst h1
      cases ktl with
      | nil =>
        rw [show [95] ++ (str " " ++ (natDec flags ++ R2))
            = 95 :: 32 :: (natDec flags ++ R2) from rfl, hdt]
        simp [List.isPrefixOf, show (95 : Nat) ≠ d from by omega]
      | cons k2 ktl2 =>
        have hk2 : k2 ≠ 32 := fun h =>
          hk (h ▸ List.mem_cons_of_mem 95 (List.mem_cons_self k2 ktl2))
        rw [show (95 :: k2 :: ktl2) ++ (str " " ++ (natDec flags ++ R2))
            = 95 :: k2 :: (ktl2 ++ (str " " ++ (natDec flags ++ R2))) from rfl]
        simp [List.isPrefixOf, show (32 : Nat) ≠ k2 from fun h => hk2 h.symm]
    · rw [show (k1 :: ktl) ++ (str " " ++ (natDec flags ++ R2))
          = k1 :: (ktl ++ (str " " ++ (natDec flags ++ R2))) from rfl]
      simp [List.isPrefixOf, show (95 : Nat) ≠ k1 from fun h => h1 h.symm]

theorem hasFlagTok_cons (c : Nat) (t : List Nat) (ts : List (List Nat)) :
    hasFlagTok c (t :: ts) ↔ t.head? = some c ∨ hasFlagTok c ts := by
  simp [hasFlagTok]

theorem mgFlagStep_fields (it0 it2 : MgItem) (t : List Nat)
    (h : mgFlagStep it0 t = .ok it2) :
    it2.success = it0.success ∧
    it2.data_block = it0.data_block ∧
    (it2.base64_key = true ↔ (it0.base64_key = true ∨ t.head? = some 98)) ∧
    (it2.cas.isSome ↔ (it0.cas.isSome ∨ t.head? = some 99)) ∧
    (it2.flags.isSome ↔ (it0.flags.isSome ∨ t.head? = some 102)) ∧
    (it2.hit.isSome ↔ (it0.hit.isSome ∨ t.head? = some 104)) ∧
    (it2.key.isSome ↔ (it0.key.isSome ∨ t.head? = some 107)) ∧
    (it2.last_access_ttl.isSome ↔ (it0.last_access_ttl.isSome ∨ t.head? = some 108)) ∧
    (it2.opaq.isSome ↔ (it0.opaq.isSome ∨ t.head? = some 79)) ∧
    (it2.size.isSome ↔ (it0.size.isSome ∨ t.head? = some 115)) ∧
    (it2.ttl.isSome ↔ (it0.ttl.isSome ∨ t.head? = some 116)) ∧
    (it2.won_recache = true ↔ (it0.won_recache = true ∨ t.head? = some 87)) ∧
    (it2.stale = true ↔ (it0.stale = true ∨ t.head? = some 88)) ∧
    (it2.already_win = true ↔ (it0.already_win = true ∨ t.head? = some 90)) := by
  cases t with
  | nil => exact absurd h (by simp [mgFlagStep])
  | cons c f =>
    simp only [mgFlagStep] at h
    by_cases hc0 : c = 98
    · rw [if_pos hc0] at h
      subst hc0
      cases h
      simp
    rw [if_neg hc0] at h
    by_cases hc1 : c = 99
    · rw [if_pos hc1] at h
      subst hc1
      cases hp : parseNat f with
      | none => rw [hp] at h; exact absurd h (by simp)
      | some v =>
        rw [hp] at h
        cases h
        simp
    rw [if_neg hc1] at h
    by_cases hc2 : c = 102
    · rw [if_pos hc2] at h
      subst hc2
      cases hp : parseNat f with
      | none => rw [hp] at h; exact absurd h (by simp)
      | some v =>
        rw [hp] at h
        cases h
        simp
    rw [if_neg hc2] at h
    by_cases hc3 : c = 104
    · rw [if_pos hc3] at h
      subst hc3
      cases hp : parseNat f with
      | none => rw [hp] at h; exact absurd h (by simp)
      | some v =>
        rw [hp] at h
        cases h
        simp
    rw [if_neg hc3] at h
    by_cases hc4 : c = 107
    · rw [if_pos hc4] at h
      subst hc4
      cases h
      simp
    rw [if_neg hc4] at h
    by_cases hc5 : c = 108
    · rw [if_pos hc5] at h
      subst hc5
      cases hp : parseInt f with
      | none => rw [hp] at h; exact absurd h (by simp)
      | some v =>
        rw [hp] at h
        cases h
        simp
    rw [if_neg hc5] at h
    by_cases hc6 : c = 79
    · rw [if_pos hc6] at h
      subst hc6
      cases h
      simp
    rw [if_neg hc6] at h
    by_cases hc7 : c = 115
    · rw [if_pos hc7] at h
      subst hc7
      cases hp : parseNat f with
      | none => rw [hp] at h; exact absurd h (by simp)
      | some v =>
        rw [hp] at h
        cases h
        simp
    rw [if_neg hc7] at h
    by_cases hc8 : c = 116
    · rw [if_pos hc8] at h
      subst hc8
      cases hp : parseInt f with
      | none => rw [hp] at h; exact absurd h (by simp)
      | some v =>
        rw [hp] at h
        cases h
        simp
    rw [if_neg hc8] at h
    by_cases hc9 : c = 87
    · rw [if_pos hc9] at h
      subst hc9
      cases h
      simp
    rw [if_neg hc9] at h
    by_cases hc10 : c = 88
    · rw [if_pos hc10] at h
      subst hc10
      cases h
      simp
    rw [if_neg hc10] at h
    by_cases hc11 : c = 90
    · rw [if_pos hc11] at h
      subst hc11
      cases h
      simp
    rw [if_neg hc11] at h
    exact absurd h (by simp)

theorem mgFlags_fields (toks : List (List Nat)) : ∀ (it0 it : MgItem),
    mgFlags toks it0 = .ok it →
    it.success = it0.success ∧
    it.data_block = it0.data_block ∧
    (it.base64_key = true ↔ (it0.base64_key = true ∨ hasFlagTok 98 toks)) ∧
    (it.cas.isSome ↔ (it0.cas.isSome ∨ hasFlagTok 99 toks)) ∧
    (it.flags.isSome ↔ (it0.flags.isSome ∨ hasFlagTok 102 toks)) ∧
    (it.hit.isSome ↔ (it0.hit.isSome ∨ hasFlagTok 104 toks)) ∧
    (it.key.isSome ↔ (it0.key.isSome ∨ hasFlagTok 107 toks)) ∧
    (it.last_access_ttl.isSome ↔ (it0.last_access_ttl.isSome ∨ hasFlagTok 108 toks)) ∧
    (it.opaq.isSome ↔ (it0.opaq.isSome ∨ hasFlagTok 79 toks)) ∧
    (it.size.isSome ↔ (it0.size.isSome ∨ hasFlagTok 115 toks)) ∧
    (it.ttl.isSome ↔ (it0.ttl.isSome ∨ hasFlagTok 116 toks)) ∧
    (it.won_recache = true ↔ (it0.won_recache = true ∨ hasFlagTok 87 toks)) ∧
    (it.stale = true ↔ (it0.stale = true ∨ hasFlagTok 88 toks)) ∧
    (it.already_win = true ↔ (it0.already_win = true ∨ hasFlagTok 90 toks)) := by
  induction toks with
  | nil =>
    intro it0 it h
    simp only [mgFlags] at h
    cases h
    simp [hasFlagTok]
  | cons t ts ih =>
    intro it0 it h
    simp only [mgFlags] at h
    cases hs : mgFlagStep it0 t with
    | error e => rw [hs] at h; exact absurd h (by simp)
    | ok it1 =>
      rw [hs] at h
      obtain ⟨A0, A1, A2, A3, A4, A5, A6, A7, A8, A9, A10, A11, A12, A13⟩ := mgFlagStep_fields it0 it1 t hs
      obtain ⟨B0, B1, B2, B3, B4, B5, B6, B7, B8, B9, B10, B11, B12, B13⟩ := ih it1 it h
      exact ⟨(B0).trans (A0), (B1).trans (A1), (by rw [hasFlagTok_cons, B2, A2, or_assoc]), (by rw [hasFlagTok_cons, B3, A3, or_assoc]), (by rw [hasFlagTok_cons, B4, A4, or_assoc]), (by rw [hasFlagTok_cons, B5, A5, or_assoc]), (by rw [hasFlagTok_cons, B6, A6, or_assoc]), (by rw [hasFlagTok_cons, B7, A7, or_assoc]), (by rw [hasFlagTok_cons, B8, A8, or_assoc]), (by rw [hasFlagTok_cons, B9, A9, or_assoc]), (by rw [hasFlagTok_cons, B10, A10, or_assoc]), (by rw [hasFlagTok_cons, B11, A11, or_assoc]), (by rw [hasFlagTok_cons, B12, A12, or_assoc]), (by rw [hasFlagTok_cons, B13, A13, or_assoc])⟩

theorem msFlagStep_fields (it0 it2 : MsItem) (t : List Nat)
    (h : msFlagStep it0 t = .ok it2) :
    it2.success = it0.success ∧
    (it2.cas.isSome ↔ (it0.cas.isSome ∨ t.head? = some 99)) ∧
    (it2.key.isSome ↔ (it0.key.isSome ∨ t.head? = some 107)) ∧
    (it2.opaq.isSome ↔ (it0.opaq.isSome ∨ t.head? = some 79)) ∧
    (it2.size.isSome ↔ (it0.size.isSome ∨ t.head? = some 115)) ∧
    (it2.base64_key = true ↔ (it0.base64_key = true ∨ t.head? = some 98)) := by
  cases t with
  | nil => exact absurd h (by simp [msFlagStep])
  | cons c f =>
    simp only [msFlagStep] at h
    by_cases hc0 : c = 99
    · rw [if_pos hc0] at h
      subst hc0
      cases hp : parseNat f with
      | none => rw [hp] at h; exact absurd h (by simp)
      | some v =>
        rw [hp] at h
        cases h
        simp
    rw [if_neg hc0] at h
    by_cases hc1 : c = 107
    · rw [if_pos hc1] at h
      subst hc1
      cases h
      simp
    rw [if_neg hc1] at h
    by_cases hc2 : c = 79
    · rw [if_pos hc2] at h
      subst hc2
      cases h
      simp
    rw [if_neg hc2] at h
    by_cases hc3 : c = 115
    · rw [if_pos hc3] at h
      subst hc3
      cases hp : parseNat f with
      | none => rw [hp] at h; exact absurd h (by simp)
      | some v =>
        rw [hp] at h
        cases h
        simp
    rw [if_neg hc3] at h
    by_cases hc4 : c = 98
    · rw [if_pos hc4] at h
      subst hc4
      cases h
      simp
    rw [if_neg hc4] at h
    exact absurd h (by simp)

theorem msFlags_fields (toks : List (List Nat)) : ∀ (it0 it : MsItem),
    msFlags toks it0 = .ok it →
    it.success = it0.success ∧
    (it.cas.isSome ↔ (it0.cas.isSome ∨ hasFlagTok 99 toks)) ∧
    (it.key.isSome ↔ (it0.key.isSome ∨ hasFlagTok 107 toks)) ∧
    (it.opaq.isSome ↔ (it0.opaq.isSome ∨ hasFlagTok 79 toks)) ∧
    (it.size.isSome ↔ (it0.size.isSome ∨ hasFlagTok 115 toks)) ∧
    (it.base64_key = true ↔ (it0.base64_key = true ∨ hasFlagTok 98 toks)) := by
  induction toks with
  | nil =>
    intro it0 it h
    simp only [msFlags] at h
    cases h
    simp [hasFlagTok]
  | cons t ts ih =>
    intro it0 it h
    simp only [msFlags] at h
    cases hs : msFlagStep it0 t with
    | error e => rw [hs] at h; exact absurd h (by simp)
    | ok it1 =>
      rw [hs] at h
      obtain ⟨A0, A1, A2, A3, A4, A5⟩ := msFlagStep_fields it0 it1 t hs
      obtain ⟨B0, B1, B2, B3, B4, B5⟩ := ih it1 it h
      exact ⟨(B0).trans (A0), (by rw [hasFlagTok_cons, B1, A1, or_assoc]), (by rw [hasFlagTok_cons, B2, A2, or_assoc]), (by rw [hasFlagTok_cons, B3, A3, or_assoc]), (by rw [hasFlagTok_cons, B4, A4, or_assoc]), (by rw [hasFlagTok_cons, B5, A5, or_assoc])⟩

theorem mdFlagStep_fields (it0 it2 : MdItem) (t : List Nat)
    (h : mdFlagStep it0 t = .ok it2) :
    it2.success = it0.success ∧
    (it2.key.isSome ↔ (it0.key.isSome ∨ t.head? = some 107)) ∧
    (it2.opaq.isSome ↔ (it0.opaq.isSome ∨ t.head? = some 79)) ∧
    (it2.base64_key = true ↔ (it0.base64_key = true ∨ t.head? = some 98)) := by
  cases t with
  | nil => exact absurd h (by simp [mdFlagStep])
  | cons c f =>
    simp only [mdFlagStep] at h
    by_cases hc0 : c = 107
    · rw [if_pos hc0] at h
      subst hc0
      cases h
      simp
    rw [if_neg hc0] at h
    by_cases hc1 : c = 79
    · rw [if_pos hc1] at h
      subst hc1
      cases h
      simp
    rw [if_neg hc1] at h
    by_cases hc2 : c = 98
    · rw [if_pos hc2] at h
      subst hc2
      cases h
      simp
    rw [if_neg hc2] at h
    exact absurd h (by simp)

theorem mdFlags_fields (toks : List (List Nat)) : ∀ (it0 it : MdItem),
    mdFlags toks it0 = .ok it →
    it.success = it0.success ∧
    (it.key.isSome ↔ (it0.key.isSome ∨ hasFlagTok 107 toks)) ∧
    (it.opaq.isSome ↔ (it0.opaq.isSome ∨ hasFlagTok 79 toks)) ∧
    (it.base64_key = true ↔ (it0.base64_key = true ∨ hasFlagTok 98 toks)) := by
  induction toks with
  | nil =>
    intro it0 it h
    simp only [mdFlags] at h
    cases h
    simp [hasFlagTok]
  | cons t ts ih =>
    intro it0 it h
    simp only [mdFlags] at h
    cases hs : mdFlagStep it0 t with
    | error e => rw [hs] at h; exact absurd h (by simp)
    | ok it1 =>
      rw [hs] at h
      obtain ⟨A0, A1, A2, A3⟩ := mdFlagStep_fields it0 it1 t hs
      obtain ⟨B0, B1, B2, B3⟩ := ih it1 it h
      exact ⟨(B0).trans (A0), (by rw [hasFlagTok_cons, B1, A1, or_assoc]), (by rw [hasFlagTok_cons, B2, A2, or_assoc]), (by rw [hasFlagTok_cons, B3, A3, or_assoc])⟩

theorem maFlagStep_fields (it0 it2 : MaItem) (t : List Nat)
    (h : maFlagStep it0 t = .ok it2) :
    it2.success = it0.success ∧
    it2.number = it0.number ∧
    (it2.opaq.isSome ↔ (it0.opaq.isSome ∨ t.head? = some 79)) ∧
    (it2.ttl.isSome ↔ (it0.ttl.isSome ∨ t.head? = some 116)) ∧
    (it2.cas.isSome ↔ (it0.cas.isSome ∨ t.head? = some 99)) ∧
    (it2.key.isSome ↔ (it0.key.isSome ∨ t.head? = some 107)) ∧
    (it2.base64_key = true ↔ (it0.base64_key = true ∨ t.head? = some 98)) := by
  cases t with
  | nil => exact absurd h (by simp [maFlagStep])
  | cons c f =>
    simp only [maFlagStep] at h
    by_cases hc0 : c = 79
    · rw [if_pos hc0] at h
      subst hc0
      cases h
      simp
    rw [if_neg hc0] at h
    by_cases hc1 : c = 116
    · rw [if_pos hc1] at h
      subst hc1
      cases hp : parseInt f with
      | none => rw [hp] at h; exact absurd h (by simp)
      | some v =>
        rw [hp] at h
        cases h
        simp
    rw [if_neg hc1] at h
    by_cases hc2 : c = 99
    · rw [if_pos hc2] at h
      subst hc2
      cases hp : parseNat f with
      | none => rw [hp] at h; exact absurd h (by simp)
      | some v =>
        rw [hp] at h
        cases h
        simp
    rw [if_neg hc2] at h
    by_cases hc3 : c = 107
    · rw [if_pos hc3] at h
      subst hc3
      cases h
      simp
    rw [if_neg hc3] at h
    by_cases hc4 : c = 98
    · rw [if_pos hc4] at h
      subst hc4
      cases h
      simp
    rw [if_neg hc4] at h
    exact absurd h (by simp)

theorem maFlags_fields (toks : List (List Nat)) : ∀ (it0 it : MaItem),
    maFlags toks it0 = .ok it →
    it.success = it0.success ∧
    it.number = it0.number ∧
    (it.opaq.isSome ↔ (it0.opaq.isSome ∨ hasFlagTok 79 toks)) ∧
    (it.ttl.isSome ↔ (it0.ttl.isSome ∨ hasFlagTok 116 toks)) ∧
    (it.cas.isSome ↔ (it0.cas.isSome ∨ hasFlagTok 99 toks)) ∧
    (it.key.isSome ↔ (it0.key.isSome ∨ hasFlagTok 107 toks)) ∧
    (it.base64_key = true ↔ (it0.base64_key = true ∨ hasFlagTok 98 toks)) := by
  induction toks with
  | nil =>
    intro it0 it h
    simp only [maFlags] at h
    cases h
    simp [hasFlagTok]
  | cons t ts ih =>
    intro it0 it h
    simp only [maFlags] at h
    cases hs : maFlagStep it0 t with
    | error e => rw [hs] at h; exact absurd h (by simp)
    | ok it1 =>
      rw [hs] at h
      obtain ⟨A0, A1, A2, A3, A4, A5, A6⟩ := maFlagStep_fields it0 it1 t hs
      obtain ⟨B0, B1, B2, B3, B4, B5, B6⟩ := ih it1 it h
      exact ⟨(B0).trans (A0), (B1).trans (A1), (by rw [hasFlagTok_cons, B2, A2, or_assoc]), (by rw [hasFlagTok_cons, B3, A3, or_assoc]), (by rw [hasFlagTok_cons, B4, A4, or_assoc]), (by rw [hasFlagTok_cons, B5, A5, or_assoc]), (by rw [hasFlagTok_cons, B6, A6, or_assoc])⟩

theorem storage_noreply_detect (verb key data : List Nat) (flags : Nat) (exptime : Int)
    (cas_u : Option Nat) (noreply : Bool) (h13v : 13 ∉ verb) (h13k : 13 ∉ key) :
    (str "noreply").isSuffixOf
        ((build_storage_cmd verb key flags exptime cas_u noreply data).takeWhile
          (fun x => x ≠ 13))
      = noreply := by
  unfold build_storage_cmd
  rw [List.append_assoc _ data (str "\r\n"),
    List.append_assoc _ (str "\r\n") (data ++ str "\r\n")]
  rw [takeWhile13_append _ _ ?hno]
  case hno =>
    simp only [List.mem_append]
    rintro ((((((((((h | h) | h) | h) | h) | h) | h) | h) | h) | h) | h)
    · exact h13v h
    · revert h; decide
    · exact h13k h
    · revert h; decide
    · exact not13_natDec _ h
    · revert h; decide
    · exact not13_intDec _ h
    · revert h; decide
    · exact not13_natDec _ h
    · rcases cas_u with _ | x
      · simp at h
      · simp only [List.mem_append] at h
        rcases h with h | h
        · revert h; decide
        · exact not13_natDec _ h
    · cases noreply
      · simp at h
      · revert h
        simp only [if_pos rfl]
        decide
  rw [show (str "\r\n" ++ (data ++ str "\r\n")).takeWhile (fun x => x ≠ 13) = [] from by
    rw [show str "\r\n" ++ (data ++ str "\r\n") = 13 :: (10 :: (data ++ str "\r\n")) from rfl]
    simp [List.takeWhile_cons]]
  rw [List.append_nil]
  cases noreply with
  | true =>
    rw [if_pos rfl]
    rw [show str " noreply" = str " " ++ str "noreply" from rfl, ← List.append_assoc]
    exact isSuffixOf_append_self _ _
  | false =>
    rw [if_neg (by simp), List.append_nil]
    rcases cas_u with _ | x
    · show (str "noreply").isSuffixOf (_ ++ ([] : List Nat)) = false
      rw [List.append_nil]
      obtain ⟨d, hd, h48, h57⟩ := natDec_getLast? data.length
      exact sfx_noreply_last_digit _ d
        (by rw [List.getLast?_append_of_ne_nil _ (natDec_ne_nil _)]; exact hd) h57
    · show (str "noreply").isSuffixOf (_ ++ (str " " ++ natDec x)) = false
      obtain ⟨d, hd, h48, h57⟩ := natDec_getLast? x
      refine sfx_noreply_last_digit _ d ?_ h57
      rw [List.getLast?_append_of_ne_nil _ (append_ne_nil_right _ _ (natDec_ne_nil _))]
      rw [List.getLast?_append_of_ne_nil _ (natDec_ne_nil _)]
      exact hd

theorem noreply_sfx_incr_decr_cmd (name key : List Nat) (value : Nat) (noreply : Bool) :
    (str "noreply\r\n").isSuffixOf (build_incr_decr_cmd name key value noreply)
      = noreply := by
  unfold build_incr_decr_cmd
  rw [show str "noreply\r\n" = str "noreply" ++ str "\r\n" from rfl,
    isSuffixOf_append_cancel]
  cases noreply with
  | true =>
    rw [if_pos rfl, show str " noreply" = str " " ++ str "noreply" from rfl,
      ← List.append_assoc]
    exact isSuffixOf_append_self _ _
  | false =>
    rw [if_neg (by simp), List.append_nil]
    obtain ⟨d, hd, h48, h57⟩ := natDec_getLast? value
    exact sfx_noreply_last_digit _ d
      (by rw [List.getLast?_append_of_ne_nil _ (natDec_ne_nil _)]; exact hd) h57

theorem noreply_sfx_touch_cmd (key : List Nat) (exptime : Int) (noreply : Bool) :
    (str "noreply\r\n").isSuffixOf (build_touch_cmd key exptime noreply) = noreply := by
  unfold build_touch_cmd
  rw [show str "noreply\r\n" = str "noreply" ++ str "\r\n" from rfl,
    isSuffixOf_append_cancel]
  cases noreply with
  | true =>
    rw [if_pos rfl, show str " noreply" = str " " ++ str "noreply" from rfl,
      ← List.append_assoc]
    exact isSuffixOf_append_self _ _
  | false =>
    rw [if_neg (by simp), List.append_nil]
    obtain ⟨d, hd, h48, h57⟩ := intDec_getLast? exptime
    exact sfx_noreply_last_digit _ d
      (by rw [List.getLast?_append_of_ne_nil _ ?hne]
          · exact hd
          · intro hc
            rw [hc] at hd
            simp at hd) h57

theorem noreply_sfx_flush_all_cmd (eo : Option Int) (noreply : Bool) :
    (str "noreply\r\n").isSuffixOf (build_flush_all_cmd eo noreply) = noreply := by
  unfold build_flush_all_cmd
  rw [show str "noreply\r\n" = str "noreply" ++ str "\r\n" from rfl,
    isSuffixOf_append_cancel]
  cases noreply with
  | true =>
    rw [if_pos rfl, show str " noreply" = str " " ++ str "noreply" from rfl,
      ← List.append_assoc]
    exact isSuffixOf_append_self _ _
  | false =>
    rw [if_neg (by simp), List.append_nil]
    rcases eo with _ | x
    · show (str "noreply").isSuffixOf (str "flush_all" ++ ([] : List Nat)) = false
      rw [List.append_nil]
      decide
    · show (str "noreply").isSuffixOf (str "flush_all" ++ (str " " ++ intDec x)) = false
      obtain ⟨d, hd, h48, h57⟩ := intDec_getLast? x
      refine sfx_noreply_last_digit _ d ?_ h57
      rw [List.getLast?_append_of_ne_nil _ (append_ne_nil_right _ _ ?hne),
        List.getLast?_append_of_ne_nil _ ?hne]
      · exact hd
      case hne =>
        intro hc
        rw [hc] at hd
        simp at hd

theorem noreply_sfx_memlimit_cmd (limit : Nat) (noreply : Bool) :
    (str "noreply\r\n").isSuffixOf (build_cache_memlimit_cmd limit noreply)
      = noreply := by
  unfold build_cache_memlimit_cmd
  rw [show str "noreply\r\n" = str "noreply" ++ str "\r\n" from rfl,
    isSuffixOf_append_cancel]
  cases noreply with
  | true =>
    rw [if_pos rfl, show str " noreply" = str " " ++ str "noreply" from rfl,
      ← List.append_assoc]
    exact isSuffixOf_append_self _ _
  | false =>
    rw [if_neg (by simp), List.append_nil]
    obtain ⟨d, hd, h48, h57⟩ := natDec_getLast? limit
    exact sfx_noreply_last_digit _ d
      (by rw [List.getLast?_append_of_ne_nil _ (natDec_ne_nil _)]; exact hd) h57

theorem noreply_sfx_delete_cmd (key : List Nat) (noreply : Bool) :
    (str "noreply\r\n").isSuffixOf (build_delete_cmd key noreply)
      = (noreply || (str "noreply").isSuffixOf key) := by
  unfold build_delete_cmd
  rw [show str "noreply\r\n" = str "noreply" ++ str "\r\n" from rfl,
    isSuffixOf_append_cancel]
  cases noreply with
  | true =>
    rw [if_pos rfl, show str " noreply" = str " " ++ str "noreply" from rfl,
      ← List.append_assoc, Bool.true_or]
    exact isSuffixOf_append_self _ _
  | false =>
    rw [if_neg (by simp), List.append_nil, Bool.false_or]
    exact noreply_sfx_delete key

theorem auth_prefix_storage_false (key R2 : List Nat) (flags : Nat) (hk : 32 ∉ key) :
    (str "set _ _ _ ").isPrefixOf
      (str "set" ++ (str " " ++ (key ++ (str " " ++ (natDec flags ++ R2))))) = false := by
  rw [show str "set" ++ (str " " ++ (key ++ (str " " ++ (natDec flags ++ R2))))
      = str "set " ++ (key ++ (str " " ++ (natDec flags ++ R2))) from rfl]
  rw [show str "set _ _ _ " = str "set " ++ [95, 32, 95, 32, 95, 32] from by decide,
    isPrefixOf_append_cancel]
  exact auth_tail_false key R2 flags hk

set_option maxHeartbeats 1600000 in
theorem execOne_storage_noreply (verb key data s : List Nat) (flags : Nat)
    (exptime : Int) (cas_u : Option Nat) (noreply : Bool)
    (hv : verb = str "set" ∨ verb = str "add" ∨ verb = str "replace" ∨
      verb = str "append" ∨ verb = str "prepend" ∨ verb = str "cas")
    (hk32 : 32 ∉ key) (hk13 : 13 ∉ key) :
    execOne (build_storage_cmd verb key flags exptime cas_u noreply data) s
      = liftRp .Bool (parse_storage_rp noreply s) := by
  rcases hv with rfl | rfl | rfl | rfl | rfl | rfl
  · have hcons : build_storage_cmd (str "set") key flags exptime cas_u noreply data
        = 115 :: 101 :: 116 :: 32 :: (((((((((((key ++ str " ") ++ natDec flags) ++ str " ") ++ intDec exptime) ++ str " ") ++ natDec data.length) ++ (match cas_u with | some x => str " " ++ natDec x | none => [])) ++ (if noreply then str " noreply" else [])) ++ str "\r\n") ++ data) ++ str "\r\n") := rfl
    have f1 : (str "gets ").isPrefixOf
        (build_storage_cmd (str "set") key flags exptime cas_u noreply data) = false := by
      rw [hcons, show str "gets " = [103, 101, 116, 115, 32] from by decide]
      simp [List.isPrefixOf]
    have f2 : (str "get ").isPrefixOf
        (build_storage_cmd (str "set") key flags exptime cas_u noreply data) = false := by
      rw [hcons, show str "get " = [103, 101, 116, 32] from by decide]
      simp [List.isPrefixOf]
    have f3 : (str "gats ").isPrefixOf
        (build_storage_cmd (str "set") key flags exptime cas_u noreply data) = false := by
      rw [hcons, show str "gats " = [103, 97, 116, 115, 32] from by decide]
      simp [List.isPrefixOf]
    have f4 : (str "gat ").isPrefixOf
        (build_storage_cmd (str "set") key flags exptime cas_u noreply data) = false := by
      rw [hcons, show str "gat " = [103, 97, 116, 32] from by decide]
      simp [List.isPrefixOf]
    have fauth : (str "set _ _ _ ").isPrefixOf
        (build_storage_cmd (str "set") key flags exptime cas_u noreply data) = false := by
      rw [hcons, show str "set _ _ _ "
          = [115, 101, 116, 32, 95, 32, 95, 32, 95, 32] from by decide]
      generalize (match cas_u with | some x => str " " ++ natDec x | none => []) = M
      generalize (if noreply then str " noreply" else []) = I
      simp only [List.isPrefixOf, List.append_assoc, Nat.reduceBEq, Bool.true_and]
      exact auth_tail_false key _ flags hk32
    have fown : (str "set ").isPrefixOf
        (build_storage_cmd (str "set") key flags exptime cas_u noreply data) = true := by
      rw [hcons, show str "set " = [115, 101, 116, 32] from by decide]
      simp [List.isPrefixOf]
    unfold execOne
    rw [if_neg (by simp [f1, f2, f3, f4]), if_neg (by simp [fauth]),
      if_pos (by simp [fown]),
      storage_noreply_detect (str "set") key data flags exptime cas_u noreply
        (by decide) hk13]
  · have hcons : build_storage_cmd (str "add") key flags exptime cas_u noreply data
        = 97 :: 100 :: 100 :: 32 :: (((((((((((key ++ str " ") ++ natDec flags) ++ str " ") ++ intDec exptime) ++ str " ") ++ natDec data.length) ++ (match cas_u with | some x => str " " ++ natDec x | none => [])) ++ (if noreply then str " noreply" else [])) ++ str "\r\n") ++ data) ++ str "\r\n") := rfl
    have f1 : (str "gets ").isPrefixOf
        (build_storage_cmd (str "add") key flags exptime cas_u noreply data) = false := by
      rw [hcons, show str "gets " = [103, 101, 116, 115, 32] from by decide]
      simp [List.isPrefixOf]
    have f2 : (str "get ").isPrefixOf
        (build_storage_cmd (str "add") key flags exptime cas_u noreply data) = false := by
      rw [hcons, show str "get " = [103, 101, 116, 32] from by decide]
      simp [List.isPrefixOf]
    have f3 : (str "gats ").isPrefixOf
        (build_storage_cmd (str "add") key flags exptime cas_u noreply data) = false := by
      rw [hcons, show str "gats " = [103, 97, 116, 115, 32] from by decide]
      simp [List.isPrefixOf]
    have f4 : (str "gat ").isPrefixOf
        (build_storage_cmd (str "add") key flags exptime cas_u noreply data) = false := by
      rw [hcons, show str "gat " = [103, 97, 116, 32] from by decide]
      simp [List.isPrefixOf]
    have fauth : (str "set _ _ _ ").isPrefixOf
        (build_storage_cmd (str "add") key flags exptime cas_u noreply data) = false := by
      rw [hcons, show str "set _ _ _ " = [115, 101, 116, 32, 95, 32, 95, 32, 95, 32] from by decide]
      simp [List.isPrefixOf]
    have fown : (str "add ").isPrefixOf
        (build_storage_cmd (str "add") key flags exptime cas_u noreply data) = true := by
      rw [hcons, show str "add " = [97, 100, 100, 32] from by decide]
      simp [List.isPrefixOf]
    unfold execOne
    rw [if_neg (by simp [f1, f2, f3, f4]), if_neg (by simp [fauth]),
      if_pos (by simp [fown]),
      storage_noreply_detect (str "add") key data flags exptime cas_u noreply
        (by decide) hk13]
  · have hcons : build_storage_cmd (str "replace") key flags exptime cas_u noreply data
        = 114 :: 101 :: 112 :: 108 :: 97 :: 99 :: 101 :: 32 :: (((((((((((key ++ str " ") ++ natDec flags) ++ str " ") ++ intDec exptime) ++ str " ") ++ natDec data.length) ++ (match cas_u with | some x => str " " ++ natDec x | none => [])) ++ (if noreply then str " noreply" else [])) ++ str "\r\n") ++ data) ++ str "\r\n") := rfl
    have f1 : (str "gets ").isPrefixOf
        (build_storage_cmd (str "replace") key flags exptime cas_u noreply data) = false := by
      rw [hcons, show str "gets " = [103, 101, 116, 115, 32] from by decide]
      simp [List.isPrefixOf]
    have f2 : (str "get ").isPrefixOf
        (build_storage_cmd (str "replace") key flags exptime cas_u noreply data) = false := by
      rw [hcons, show str "get " = [103, 101, 116, 32] from by decide]
      simp [List.isPrefixOf]
    have f3 : (str "gats ").isPrefixOf
        (build_storage_cmd (str "replace") key flags exptime cas_u noreply data) = false := by
      rw [hcons, show str "gats " = [103, 97, 116, 115, 32] from by decide]
      simp [List.isPrefixOf]
    have f4 : (str "gat ").isPrefixOf
        (build_storage_cmd (str "replace") key flags exptime cas_u noreply data) = false := by
      rw [hcons, show str "gat " = [103, 97, 116, 32] from by decide]
      simp [List.isPrefixOf]
    have fauth : (str "set _ _ _ ").isPrefixOf
        (build_storage_cmd (str "replace") key flags exptime cas_u noreply data) = false := by
      rw [hcons, show str "set _ _ _ " = [115, 101, 116, 32, 95, 32, 95, 32, 95, 32] from by decide]
      simp [List.isPrefixOf]
    have fown : (str "replace ").isPrefixOf
        (build_storage_cmd (str "replace") key flags exptime cas_u noreply data) = true := by
      rw [hcons, show str "replace " = [114, 101, 112, 108, 97, 99, 101, 32] from by decide]
      simp [List.isPrefixOf]
    unfold execOne
    rw [if_neg (by simp [f1, f2, f3, f4]), if_neg (by simp [fauth]),
      if_pos (by simp [fown]),
      storage_noreply_detect (str "replace") key data flags exptime cas_u noreply
        (by decide) hk13]
  · have hcons : build_storage_cmd (str "append") key flags exptime cas_u noreply data
        = 97 :: 112 :: 112 :: 101 :: 110 :: 100 :: 32 :: (((((((((((key ++ str " ") ++ natDec flags) ++ str " ") ++ intDec exptime) ++ str " ") ++ natDec data.length) ++ (match cas_u with | some x => str " " ++ natDec x | none => [])) ++ (if noreply then str " noreply" else [])) ++ str "\r\n") ++ data) ++ str "\r\n") := rfl
    have f1 : (str "gets ").isPrefixOf
        (build_storage_cmd (str "append") key flags exptime cas_u noreply data) = false := by
      rw [hcons, show str "gets " = [103, 101, 116, 115, 32] from by decide]
      simp [List.isPrefixOf]
    have f2 : (str "get ").isPrefixOf
        (build_storage_cmd (str "append") key flags exptime cas_u noreply data) = false := by
      rw [hcons, show str "get " = [103, 101, 116, 32] from by decide]
      simp [List.isPrefixOf]
    have f3 : (str "gats ").isPrefixOf
        (build_storage_cmd (str "append") key flags exptime cas_u noreply data) = false := by
      rw [hcons, show str "gats " = [103, 97, 116, 115, 32] from by decide]
      simp [List.isPrefixOf]
    have f4 : (str "gat ").isPrefixOf
        (build_storage_cmd (str "append") key flags exptime cas_u noreply data) = false := by
      rw [hcons, show str "gat " = [103, 97, 116, 32] from by decide]
      simp [List.isPrefixOf]
    have fauth : (str "set _ _ _ ").isPrefixOf
        (build_storage_cmd (str "append") key flags exptime cas_u noreply data) = false := by
      rw [hcons, show str "set _ _ _ " = [115, 101, 116, 32, 95, 32, 95, 32, 95, 32] from by decide]
      simp [List.isPrefixOf]
    have fown : (str "append ").isPrefixOf
        (build_storage_cmd (str "append") key flags exptime cas_u noreply data) = true := by
      rw [hcons, show str "append " = [97, 112, 112, 101, 110, 100, 32] from by decide]
      simp [List.isPrefixOf]
    unfold execOne
    rw [if_neg (by simp [f1, f2, f3, f4]), if_neg (by simp [fauth]),
      if_pos (by simp [fown]),
      storage_noreply_detect (str "append") key data flags exptime cas_u noreply
        (by decide) hk13]
  · have hcons : build_storage_cmd (str "prepend") key flags exptime cas_u noreply data
        = 112 :: 114 :: 101 :: 112 :: 101 :: 110 :: 100 :: 32 :: (((((((((((key ++ str " ") ++ natDec flags) ++ str " ") ++ intDec exptime) ++ str " ") ++ natDec data.length) ++ (match cas_u with | some x => str " " ++ natDec x | none => [])) ++ (if noreply then str " noreply" else [])) ++ str "\r\n") ++ data) ++ str "\r\n") := rfl
    have f1 : (str "gets ").isPrefixOf
        (build_storage_cmd (str "prepend") key flags exptime cas_u noreply data) = false := by
      rw [hcons, show str "gets " = [103, 101, 116, 115, 32] from by decide]
      simp [List.isPrefixOf]
    have f2 : (str "get ").isPrefixOf
        (build_storage_cmd (str "prepend") key flags exptime cas_u noreply data) = false := by
      rw [hcons, show str "get " = [103, 101, 116, 32] from by decide]
      simp [List.isPrefixOf]
    have f3 : (str "gats ").isPrefixOf
        (build_storage_cmd (str "prepend") key flags exptime cas_u noreply data) = false := by
      rw [hcons, show str "gats " = [103, 97, 116, 115, 32] from by decide]
      simp [List.isPrefixOf]
    have f4 : (str "gat ").isPrefixOf
        (build_storage_cmd (str "prepend") key flags exptime cas_u noreply data) = false := by
      rw [hcons, show str "gat " = [103, 97, 116, 32] from by decide]
      simp [List.isPrefixOf]
    have fauth : (str "set _ _ _ ").isPrefixOf
        (build_storage_cmd (str "prepend") key flags exptime cas_u noreply data) = false := by
      rw [hcons, show str "set _ _ _ " = [115, 101, 116, 32, 95, 32, 95, 32, 95, 32] from by decide]
      simp [List.isPrefixOf]
    have fown : (str "prepend ").isPrefixOf
        (build_storage_cmd (str "prepend") key flags exptime cas_u noreply data) = true := by
      rw [hcons, show str "prepend " = [112, 114, 101, 112, 101, 110, 100, 32] from by decide]
      simp [List.isPrefixOf]
    unfold execOne
    rw [if_neg (by simp [f1, f2, f3, f4]), if_neg (by simp [fauth]),
      if_pos (by simp [fown]),
      storage_noreply_detect (str "prepend") key data flags exptime cas_u noreply
        (by decide) hk13]
  · have hcons : build_storage_cmd (str "cas") key flags exptime cas_u noreply data
        = 99 :: 97 :: 115 :: 32 :: (((((((((((key ++ str " ") ++ natDec flags) ++ str " ") ++ intDec exptime) ++ str " ") ++ natDec data.length) ++ (match cas_u with | some x => str " " ++ natDec x | none => [])) ++ (if noreply then str " noreply" else [])) ++ str "\r\n") ++ data) ++ str "\r\n") := rfl
    have f1 : (str "gets ").isPrefixOf
        (build_storage_cmd (str "cas") key flags exptime cas_u noreply data) = false := by
      rw [hcons, show str "gets " = [103, 101, 116, 115, 32] from by decide]
      simp [List.isPrefixOf]
    have f2 : (str "get ").isPrefixOf
        (build_storage_cmd (str "cas") key flags exptime cas_u noreply data) = false := by
      rw [hcons, show str "get " = [103, 101, 116, 32] from by decide]
      simp [List.isPrefixOf]
    have f3 : (str "gats ").isPrefixOf
        (build_storage_cmd (str "cas") key flags exptime cas_u noreply data) = false := by
      rw [hcons, show str "gats " = [103, 97, 116, 115, 32] from by decide]
      simp [List.isPrefixOf]
    have f4 : (str "gat ").isPrefixOf
        (build_storage_cmd (str "cas") key flags exptime cas_u noreply data) = false := by
      rw [hcons, show str "gat " = [103, 97, 116, 32] from by decide]
      simp [List.isPrefixOf]
    have fauth : (str "set _ _ _ ").isPrefixOf
        (build_storage_cmd (str "cas") key flags exptime cas_u noreply data) = false := by
      rw [hcons, show str "set _ _ _ " = [115, 101, 116, 32, 95, 32, 95, 32, 95, 32] from by decide]
      simp [List.isPrefixOf]
    have fown : (str "cas ").isPrefixOf
        (build_storage_cmd (str "cas") key flags exptime cas_u noreply data) = true := by
      rw [hcons, show str "cas " = [99, 97, 115, 32] from by decide]
      simp [List.isPrefixOf]
    unfold execOne
    rw [if_neg (by simp [f1, f2, f3, f4]), if_neg (by simp [fauth]),
      if_pos (by simp [fown]),
      storage_noreply_detect (str "cas") key data flags exptime cas_u noreply
        (by decide) hk13]

set_option maxHeartbeats 1600000 in
theorem execOne_delete_noreply (key s : List Nat) (noreply : Bool) :
    execOne (build_delete_cmd key noreply) s
      = liftRp .Bool (parse_delete_rp (noreply || (str "noreply").isSuffixOf key) s) := by
  have hcons : build_delete_cmd key noreply
      = 100 :: 101 :: 108 :: 101 :: 116 :: 101 :: 32 :: ((key ++ (if noreply then str " noreply" else [])) ++ str "\r\n") := rfl
  have f1 : (str "gets ").isPrefixOf
      (build_delete_cmd key noreply) = false := by
    rw [hcons, show str "gets " = [103, 101, 116, 115, 32] from by decide]
    simp [List.isPrefixOf]
  have f2 : (str "get ").isPrefixOf
      (build_delete_cmd key noreply) = false := by
    rw [hcons, show str "get " = [103, 101, 116, 32] from by decide]
    simp [List.isPrefixOf]
  have f3 : (str "gats ").isPrefixOf
      (build_delete_cmd key noreply) = false := by
    rw [hcons, show str "gats " = [103, 97, 116, 115, 32] from by decide]
    simp [List.isPrefixOf]
  have f4 : (str "gat ").isPrefixOf
      (build_delete_cmd key noreply) = false := by
    rw [hcons, show str "gat " = [103, 97, 116, 32] from by decide]
    simp [List.isPrefixOf]
  have fauth : (str "set _ _ _ ").isPrefixOf
      (build_delete_cmd key noreply) = false := by
    rw [hcons, show str "set _ _ _ " = [115, 101, 116, 32, 95, 32, 95, 32, 95, 32] from by decide]
    simp [List.isPrefixOf]
  have fvset : (str "set ").isPrefixOf
      (build_delete_cmd key noreply) = false := by
    rw [hcons, show str "set " = [115, 101, 116, 32] from by decide]
    simp [List.isPrefixOf]
  have fvadd : (str "add ").isPrefixOf
      (build_delete_cmd key noreply) = false := by
    rw [hcons, show str "add " = [97, 100, 100, 32] from by decide]
    simp [List.isPrefixOf]
  have fvrep : (str "replace ").isPrefixOf
      (build_delete_cmd key noreply) = false := by
    rw [hcons, show str "replace " = [114, 101, 112, 108, 97, 99, 101, 32] from by decide]
    simp [List.isPrefixOf]
  have fvapp : (str "append ").isPrefixOf
      (build_delete_cmd key noreply) = false := by
    rw [hcons, show str "append " = [97, 112, 112, 101, 110, 100, 32] from by decide]
    simp [List.isPrefixOf]
  have fvpre : (str "prepend ").isPrefixOf
      (build_delete_cmd key noreply) = false := by
    rw [hcons, show str "prepend " = [112, 114, 101, 112, 101, 110, 100, 32] from by decide]
    simp [List.isPrefixOf]
  have fvcas : (str "cas ").isPrefixOf
      (build_delete_cmd key noreply) = false := by
    rw [hcons, show str "cas " = [99, 97, 115, 32] from by decide]
    simp [List.isPrefixOf]
  have hver : ¬(build_delete_cmd key noreply = build_version_cmd) := by
    rw [hcons]
    intro hEq
    have h3 := congrArg List.head? hEq
    rw [List.head?_cons,
      show List.head? build_version_cmd = some 118 from rfl] at h3
    exact absurd (Option.some.inj h3) (by decide)
  have fown : (str "delete ").isPrefixOf
      (build_delete_cmd key noreply) = true := by
    rw [hcons, show str "delete " = [100, 101, 108, 101, 116, 101, 32] from by decide]
    simp [List.isPrefixOf]
  unfold execOne
  rw [if_neg (by simp [f1, f2, f3, f4]),
    if_neg (by simp [fauth]),
    if_neg (by simp [fvset, fvadd, fvrep, fvapp, fvpre, fvcas]),
    if_neg hver,
    if_pos (by simp [fown]),
    noreply_sfx_delete_cmd]

set_option maxHeartbeats 1600000 in
theorem execOne_incr_decr_noreply (verb key s : List Nat) (value : Nat)
    (noreply : Bool) (hv : verb = str "incr" ∨ verb = str "decr") :
    execOne (build_incr_decr_cmd verb key value noreply) s
      = liftRp .Value (parse_incr_decr_rp noreply s) := by
  rcases hv with rfl | rfl
  · have hcons : build_incr_decr_cmd (str "incr") key value noreply
        = 105 :: 110 :: 99 :: 114 :: 32 :: ((((key ++ str " ") ++ natDec value) ++ (if noreply then str " noreply" else [])) ++ str "\r\n") := rfl
    have f1 : (str "gets ").isPrefixOf
        (build_incr_decr_cmd (str "incr") key value noreply) = false := by
      rw [hcons, show str "gets " = [103, 101, 116, 115, 32] from by decide]
      simp [List.isPrefixOf]
    have f2 : (str "get ").isPrefixOf
        (build_incr_decr_cmd (str "incr") key value noreply) = false := by
      rw [hcons, show str "get " = [103, 101, 116, 32] from by decide]
      simp [List.isPrefixOf]
    have f3 : (str "gats ").isPrefixOf
        (build_incr_decr_cmd (str "incr") key value noreply) = false := by
      rw [hcons, show str "gats " = [103, 97, 116, 115, 32] from by decide]
      simp [List.isPrefixOf]
    have f4 : (str "gat ").isPrefixOf
        (build_incr_decr_cmd (str "incr") key value noreply) = false := by
      rw [hcons, show str "gat " = [103, 97, 116, 32] from by decide]
      simp [List.isPrefixOf]
    have fauth : (str "set _ _ _ ").isPrefixOf
        (build_incr_decr_cmd (str "incr") key value noreply) = false := by
      rw [hcons, show str "set _ _ _ " = [115, 101, 116, 32, 95, 32, 95, 32, 95, 32] from by decide]
      simp [List.isPrefixOf]
    have fvset : (str "set ").isPrefixOf
        (build_incr_decr_cmd (str "incr") key value noreply) = false := by
      rw [hcons, show str "set " = [115, 101, 116, 32] from by decide]
      simp [List.isPrefixOf]
    have fvadd : (str "add ").isPrefixOf
        (build_incr_decr_cmd (str "incr") key value noreply) = false := by
      rw [hcons, show str "add " = [97, 100, 100, 32] from by decide]
      simp [List.isPrefixOf]
    have fvrep : (str "replace ").isPrefixOf
        (build_incr_decr_cmd (str "incr") key value noreply) = false := by
      rw [hcons, show str "replace " = [114, 101, 112, 108, 97, 99, 101, 32] from by decide]
      simp [List.isPrefixOf]
    have fvapp : (str "append ").isPrefixOf
        (build_incr_decr_cmd (str "incr") key value noreply) = false := by
      rw [hcons, show str "append " = [97, 112, 112, 101, 110, 100, 32] from by decide]
      simp [List.isPrefixOf]
    have fvpre : (str "prepend ").isPrefixOf
        (build_incr_decr_cmd (str "incr") key value noreply) = false := by
      rw [hcons, show str "prepend " = [112, 114, 101, 112, 101, 110, 100, 32] from by decide]
      simp [List.isPrefixOf]
    have fvcas : (str "cas ").isPrefixOf
        (build_incr_decr_cmd (str "incr") key value noreply) = false := by
      rw [hcons, show str "cas " = [99, 97, 115, 32] from by decide]
      simp [List.isPrefixOf]
    have hver : ¬(build_incr_decr_cmd (str "incr") key value noreply = build_version_cmd) := by
      rw [hcons]
      intro hEq
      have h3 := congrArg List.head? hEq
      rw [List.head?_cons,
        show List.head? build_version_cmd = some 118 from rfl] at h3
      exact absurd (Option.some.inj h3) (by decide)
    have fdel : (str "delete ").isPrefixOf
        (build_incr_decr_cmd (str "incr") key value noreply) = false := by
      rw [hcons, show str "delete " = [100, 101, 108, 101, 116, 101, 32] from by decide]
      simp [List.isPrefixOf]
    have fown : (str "incr ").isPrefixOf
        (build_incr_decr_cmd (str "incr") key value noreply) = true := by
      rw [hcons, show str "incr " = [105, 110, 99, 114, 32] from by decide]
      simp [List.isPrefixOf]
    unfold execOne
    rw [if_neg (by simp [f1, f2, f3, f4]),
      if_neg (by simp [fauth]),
      if_neg (by simp [fvset, fvadd, fvrep, fvapp, fvpre, fvcas]),
      if_neg hver,
      if_neg (by simp [fdel]),
      if_pos (by simp [fown]),
      noreply_sfx_incr_decr_cmd]
  · have hcons : build_incr_decr_cmd (str "decr") key value noreply
        = 100 :: 101 :: 99 :: 114 :: 32 :: ((((key ++ str " ") ++ natDec value) ++ (if noreply then str " noreply" else [])) ++ str "\r\n") := rfl
    have f1 : (str "gets ").isPrefixOf
        (build_incr_decr_cmd (str "decr") key value noreply) = false := by
      rw [hcons, show str "gets " = [103, 101, 116, 115, 32] from by decide]
      simp [List.isPrefixOf]
    have f2 : (str "get ").isPrefixOf
        (build_incr_decr_cmd (str "decr") key value noreply) = false := by
      rw [hcons, show str "get " = [103, 101, 116, 32] from by decide]
      simp [List.isPrefixOf]
    have f3 : (str "gats ").isPrefixOf
        (build_incr_decr_cmd (str "decr") key value noreply) = false := by
      rw [hcons, show str "gats " = [103, 97, 116, 115, 32] from by decide]
      simp [List.isPrefixOf]
    have f4 : (str "gat ").isPrefixOf
        (build_incr_decr_cmd (str "decr") key value noreply) = false := by
      rw [hcons, show str "gat " = [103, 97, 116, 32] from by decide]
      simp [List.isPrefixOf]
    have fauth : (str "set _ _ _ ").isPrefixOf
        (build_incr_decr_cmd (str "decr") key value noreply) = false := by
      rw [hcons, show str "set _ _ _ " = [115, 101, 116, 32, 95, 32, 95, 32, 95, 32] from by decide]
      simp [List.isPrefixOf]
    have fvset : (str "set ").isPrefixOf
        (build_incr_decr_cmd (str "decr") key value noreply) = false := by
      rw [hcons, show str "set " = [115, 101, 116, 32] from by decide]
      simp [List.isPrefixOf]
    have fvadd : (str "add ").isPrefixOf
        (build_incr_decr_cmd (str "decr") key value noreply) = false := by
      rw [hcons, show str "add " = [97, 100, 100, 32] from by decide]
      simp [List.isPrefixOf]
    have fvrep : (str "replace ").isPrefixOf
        (build_incr_decr_cmd (str "decr") key value noreply) = false := by
      rw [hcons, show str "replace " = [114, 101, 112, 108, 97, 99, 101, 32] from by decide]
      simp [List.isPrefixOf]
    have fvapp : (str "append ").isPrefixOf
        (build_incr_decr_cmd (str "decr") key value noreply) = false := by
      rw [hcons, show str "append " = [97, 112, 112, 101, 110, 100, 32] from by decide]
      simp [List.isPrefixOf]
    have fvpre : (str "prepend ").isPrefixOf
        (build_incr_decr_cmd (str "decr") key value noreply) = false := by
      rw [hcons, show str "prepend " = [112, 114, 101, 112, 101, 110, 100, 32] from by decide]
      simp [List.isPrefixOf]
    have fvcas : (str "cas ").isPrefixOf
        (build_incr_decr_cmd (str "decr") key value noreply) = false := by
      rw [hcons, show str "cas " = [99, 97, 115, 32] from by decide]
      simp [List.isPrefixOf]
    have hver : ¬(build_incr_decr_cmd (str "decr") key value noreply = build_version_cmd) := by
      rw [hcons]
      intro hEq
      have h3 := congrArg List.head? hEq
      rw [List.head?_cons,
        show List.head? build_version_cmd = some 118 from rfl] at h3
      exact absurd (Option.some.inj h3) (by decide)
    have fdel : (str "delete ").isPrefixOf
        (build_incr_decr_cmd (str "decr") key value noreply) = false := by
      rw [hcons, show str "delete " = [100, 101, 108, 101, 116, 101, 32] from by decide]
      simp [List.isPrefixOf]
    have fown : (str "decr ").isPrefixOf
        (build_incr_decr_cmd (str "decr") key value noreply) = true := by
      rw [hcons, show str "decr " = [100, 101, 99, 114, 32] from by decide]
      simp [List.isPrefixOf]
    unfold execOne
    rw [if_neg (by simp [f1, f2, f3, f4]),
      if_neg (by simp [fauth]),
      if_neg (by simp [fvset, fvadd, fvrep, fvapp, fvpre, fvcas]),
      if_neg hver,
      if_neg (by simp [fdel]),
      if_pos (by simp [fown]),
      noreply_sfx_incr_decr_cmd]

set_option maxHeartbeats 1600000 in
theorem execOne_touch_noreply (key s : List Nat) (exptime : Int) (noreply : Bool) :
    execOne (build_touch_cmd key exptime noreply) s
      = liftRp (fun b => .Bool b) (parse_touch_rp noreply s) := by
  have hcons : build_touch_cmd key exptime noreply
      = 116 :: 111 :: 117 :: 99 :: 104 :: 32 :: ((((key ++ str " ") ++ intDec exptime) ++ (if noreply then str " noreply" else [])) ++ str "\r\n") := rfl
  have f1 : (str "gets ").isPrefixOf
      (build_touch_cmd key exptime noreply) = false := by
    rw [hcons, show str "gets " = [103, 101, 116, 115, 32] from by decide]
    simp [List.isPrefixOf]
  have f2 : (str "get ").isPrefixOf
      (build_touch_cmd key exptime noreply) = false := by
    rw [hcons, show str "get " = [103, 101, 116, 32] from by decide]
    simp [List.isPrefixOf]
  have f3 : (str "gats ").isPrefixOf
      (build_touch_cmd key exptime noreply) = false := by
    rw [hcons, show str "gats " = [103, 97, 116, 115, 32] from by decide]
    simp [List.isPrefixOf]
  have f4 : (str "gat ").isPrefixOf
      (build_touch_cmd key exptime noreply) = false := by
    rw [hcons, show str "gat " = [103, 97, 116, 32] from by decide]
    simp [List.isPrefixOf]
  have fauth : (str "set _ _ _ ").isPrefixOf
      (build_touch_cmd key exptime noreply) = false := by
    rw [hcons, show str "set _ _ _ " = [115, 101, 116, 32, 95, 32, 95, 32, 95, 32] from by decide]
    simp [List.isPrefixOf]
  have fvset : (str "set ").isPrefixOf
      (build_touch_cmd key exptime noreply) = false := by
    rw [hcons, show str "set " = [115, 101, 116, 32] from by decide]
    simp [List.isPrefixOf]
  have fvadd : (str "add ").isPrefixOf
      (build_touch_cmd key exptime noreply) = false := by
    rw [hcons, show str "add " = [97, 100, 100, 32] from by decide]
    simp [List.isPrefixOf]
  have fvrep : (str "replace ").isPrefixOf
      (build_touch_cmd key exptime noreply) = false := by
    rw [hcons, show str "replace " = [114, 101, 112, 108, 97, 99, 101, 32] from by decide]
    simp [List.isPrefixOf]
  have fvapp : (str "append ").isPrefixOf
      (build_touch_cmd key exptime noreply) = false := by
    rw [hcons, show str "append " = [97, 112, 112, 101, 110, 100, 32] from by decide]
    simp [List.isPrefixOf]
  have fvpre : (str "prepend ").isPrefixOf
      (build_touch_cmd key exptime noreply) = false := by
    rw [hcons, show str "prepend " = [112, 114, 101, 112, 101, 110, 100, 32] from by decide]
    simp [List.isPrefixOf]
  have fvcas : (str "cas ").isPrefixOf
      (build_touch_cmd key exptime noreply) = false := by
    rw [hcons, show str "cas " = [99, 97, 115, 32] from by decide]
    simp [List.isPrefixOf]
  have hver : ¬(build_touch_cmd key exptime noreply = build_version_cmd) := by
    rw [hcons]
    intro hEq
    have h3 := congrArg List.head? hEq
    rw [List.head?_cons,
      show List.head? build_version_cmd = some 118 from rfl] at h3
    exact absurd (Option.some.inj h3) (by decide)
  have fdel : (str "delete ").isPrefixOf
      (build_touch_cmd key exptime noreply) = false := by
    rw [hcons, show str "delete " = [100, 101, 108, 101, 116, 101, 32] from by decide]
    simp [List.isPrefixOf]
  have fincr : (str "incr ").isPrefixOf
      (build_touch_cmd key exptime noreply) = false := by
    rw [hcons, show str "incr " = [105, 110, 99, 114, 32] from by decide]
    simp [List.isPrefixOf]
  have fdecr : (str "decr ").isPrefixOf
      (build_touch_cmd key exptime noreply) = false := by
    rw [hcons, show str "decr " = [100, 101, 99, 114, 32] from by decide]
    simp [List.isPrefixOf]
  have fown : (str "touch ").isPrefixOf
      (build_touch_cmd key exptime noreply) = true := by
    rw [hcons, show str "touch " = [116, 111, 117, 99, 104, 32] from by decide]
    simp [List.isPrefixOf]
  unfold execOne
  rw [if_neg (by simp [f1, f2, f3, f4]),
    if_neg (by simp [fauth]),
    if_neg (by simp [fvset, fvadd, fvrep, fvapp, fvpre, fvcas]),
    if_neg hver,
    if_neg (by simp [fdel]),
    if_neg (by simp [fincr, fdecr]),
    if_pos (by simp [fown]),
    noreply_sfx_touch_cmd]

set_option maxHeartbeats 1600000 in
theorem execOne_flush_all_noreply (s : List Nat) (eo : Option Int) (noreply : Bool) :
    execOne (build_flush_all_cmd eo noreply) s
      = liftRp (fun _ => .Unit) (parse_ok_rp noreply s) := by
  have hcons : build_flush_all_cmd eo noreply
      = 102 :: 108 :: 117 :: 115 :: 104 :: 95 :: 97 :: 108 :: 108 :: (((match eo with | some x => str " " ++ intDec x | none => []) ++ (if noreply then str " noreply" else [])) ++ str "\r\n") := rfl
  have f1 : (str "gets ").isPrefixOf
      (build_flush_all_cmd eo noreply) = false := by
    rw [hcons, show str "gets " = [103, 101, 116, 115, 32] from by decide]
    simp [List.isPrefixOf]
  have f2 : (str "get ").isPrefixOf
      (build_flush_all_cmd eo noreply) = false := by
    rw [hcons, show str "get " = [103, 101, 116, 32] from by decide]
    simp [List.isPrefixOf]
  have f3 : (str "gats ").isPrefixOf
      (build_flush_all_cmd eo noreply) = false := by
    rw [hcons, show str "gats " = [103, 97, 116, 115, 32] from by decide]
    simp [List.isPrefixOf]
  have f4 : (str "gat ").isPrefixOf
      (build_flush_all_cmd eo noreply) = false := by
    rw [hcons, show str "gat " = [103, 97, 116, 32] from by decide]
    simp [List.isPrefixOf]
  have fauth : (str "set _ _ _ ").isPrefixOf
      (build_flush_all_cmd eo noreply) = false := by
    rw [hcons, show str "set _ _ _ " = [115, 101, 116, 32, 95, 32, 95, 32, 95, 32] from by decide]
    simp [List.isPrefixOf]
  have fvset : (str "set ").isPrefixOf
      (build_flush_all_cmd eo noreply) = false := by
    rw [hcons, show str "set " = [115, 101, 116, 32] from by decide]
    simp [List.isPrefixOf]
  have fvadd : (str "add ").isPrefixOf
      (build_flush_all_cmd eo noreply) = false := by
    rw [hcons, show str "add " = [97, 100, 100, 32] from by decide]
    simp [List.isPrefixOf]
  have fvrep : (str "replace ").isPrefixOf
      (build_flush_all_cmd eo noreply) = false := by
    rw [hcons, show str "replace " = [114, 101, 112, 108, 97, 99, 101, 32] from by decide]
    simp [List.isPrefixOf]
  have fvapp : (str "append ").isPrefixOf
      (build_flush_all_cmd eo noreply) = false := by
    rw [hcons, show str "append " = [97, 112, 112, 101, 110, 100, 32] from by decide]
    simp [List.isPrefixOf]
  have fvpre : (str "prepend ").isPrefixOf
      (build_flush_all_cmd eo noreply) = false := by
    rw [hcons, show str "prepend " = [112, 114, 101, 112, 101, 110, 100, 32] from by decide]
    simp [List.isPrefixOf]
  have fvcas : (str "cas ").isPrefixOf
      (build_flush_all_cmd eo noreply) = false := by
    rw [hcons, show str "cas " = [99, 97, 115, 32] from by decide]
    simp [List.isPrefixOf]
  have hver : ¬(build_flush_all_cmd eo noreply = build_version_cmd) := by
    rw [hcons]
    intro hEq
    have h3 := congrArg List.head? hEq
    rw [List.head?_cons,
      show List.head? build_version_cmd = some 118 from rfl] at h3
    exact absurd (Option.some.inj h3) (by decide)
  have fdel : (str "delete ").isPrefixOf
      (build_flush_all_cmd eo noreply) = false := by
    rw [hcons, show str "delete " = [100, 101, 108, 101, 116, 101, 32] from by decide]
    simp [List.isPrefixOf]
  have fincr : (str "incr ").isPrefixOf
      (build_flush_all_cmd eo noreply) = false := by
    rw [hcons, show str "incr " = [105, 110, 99, 114, 32] from by decide]
    simp [List.isPrefixOf]
  have fdecr : (str "decr ").isPrefixOf
      (build_flush_all_cmd eo noreply) = false := by
    rw [hcons, show str "decr " = [100, 101, 99, 114, 32] from by decide]
    simp [List.isPrefixOf]
  have ftch : (str "touch ").isPrefixOf
      (build_flush_all_cmd eo noreply) = false := by
    rw [hcons, show str "touch " = [116, 111, 117, 99, 104, 32] from by decide]
    simp [List.isPrefixOf]
  have hquit : ¬(build_flush_all_cmd eo noreply = build_quit_cmd) := by
    rw [hcons]
    intro hEq
    have h3 := congrArg List.head? hEq
    rw [List.head?_cons,
      show List.head? build_quit_cmd = some 113 from rfl] at h3
    exact absurd (Option.some.inj h3) (by decide)
  have fshut : (str "shutdown").isPrefixOf
      (build_flush_all_cmd eo noreply) = false := by
    rw [hcons, show str "shutdown" = [115, 104, 117, 116, 100, 111, 119, 110] from by decide]
    simp [List.isPrefixOf]
  have fown : (str "flush_all").isPrefixOf
      (build_flush_all_cmd eo noreply) = true := by
    rw [hcons, show str "flush_all" = [102, 108, 117, 115, 104, 95, 97, 108, 108] from by decide]
    simp [List.isPrefixOf]
  unfold execOne
  rw [if_neg (by simp [f1, f2, f3, f4]),
    if_neg (by simp [fauth]),
    if_neg (by simp [fvset, fvadd, fvrep, fvapp, fvpre, fvcas]),
    if_neg hver,
    if_neg (by simp [fdel]),
    if_neg (by simp [fincr, fdecr]),
    if_neg (by simp [ftch]),
    if_neg (by simp [fshut, hquit]),
    if_pos (by simp [fown]),
    noreply_sfx_flush_all_cmd]

set_option maxHeartbeats 1600000 in
theorem execOne_memlimit_noreply (s : List Nat) (limit : Nat) (noreply : Bool) :
    execOne (build_cache_memlimit_cmd limit noreply) s
      = liftRp (fun _ => .Unit) (parse_ok_rp noreply s) := by
  have hcons : build_cache_memlimit_cmd limit noreply
      = 99 :: 97 :: 99 :: 104 :: 101 :: 95 :: 109 :: 101 :: 109 :: 108 :: 105 :: 109 :: 105 :: 116 :: 32 :: ((natDec limit ++ (if noreply then str " noreply" else [])) ++ str "\r\n") := rfl
  have f1 : (str "gets ").isPrefixOf
      (build_cache_memlimit_cmd limit noreply) = false := by
    rw [hcons, show str "gets " = [103, 101, 116, 115, 32] from by decide]
    simp [List.isPrefixOf]
  have f2 : (str "get ").isPrefixOf
      (build_cache_memlimit_cmd limit noreply) = false := by
    rw [hcons, show str "get " = [103, 101, 116, 32] from by decide]
    simp [List.isPrefixOf]
  have f3 : (str "gats ").isPrefixOf
      (build_cache_memlimit_cmd limit noreply) = false := by
    rw [hcons, show str "gats " = [103, 97, 116, 115, 32] from by decide]
    simp [List.isPrefixOf]
  have f4 : (str "gat ").isPrefixOf
      (build_cache_memlimit_cmd limit noreply) = false := by
    rw [hcons, show str "gat " = [103, 97, 116, 32] from by decide]
    simp [List.isPrefixOf]
  have fauth : (str "set _ _ _ ").isPrefixOf
      (build_cache_memlimit_cmd limit noreply) = false := by
    rw [hcons, show str "set _ _ _ " = [115, 101, 116, 32, 95, 32, 95, 32, 95, 32] from by decide]
    simp [List.isPrefixOf]
  have fvset : (str "set ").isPrefixOf
      (build_cache_memlimit_cmd limit noreply) = false := by
    rw [hcons, show str "set " = [115, 101, 116, 32] from by decide]
    simp [List.isPrefixOf]
  have fvadd : (str "add ").isPrefixOf
      (build_cache_memlimit_cmd limit noreply) = false := by
    rw [hcons, show str "add " = [97, 100, 100, 32] from by decide]
    simp [List.isPrefixOf]
  have fvrep : (str "replace ").isPrefixOf
      (build_cache_memlimit_cmd limit noreply) = false := by
    rw [hcons, show str "replace " = [114, 101, 112, 108, 97, 99, 101, 32] from by decide]
    simp [List.isPrefixOf]
  have fvapp : (str "append ").isPrefixOf
      (build_cache_memlimit_cmd limit noreply) = false := by
    rw [hcons, show str "append " = [97, 112, 112, 101, 110, 100, 32] from by decide]
    simp [List.isPrefixOf]
  have fvpre : (str "prepend ").isPrefixOf
      (build_cache_memlimit_cmd limit noreply) = false := by
    rw [hcons, show str "prepend " = [112, 114, 101, 112, 101, 110, 100, 32] from by decide]
    simp [List.isPrefixOf]
  have fvcas : (str "cas ").isPrefixOf
      (build_cache_memlimit_cmd limit noreply) = false := by
    rw [hcons, show str "cas " = [99, 97, 115, 32] from by decide]
    simp [List.isPrefixOf]
  have hver : ¬(build_cache_memlimit_cmd limit noreply = build_version_cmd) := by
    rw [hcons]
    intro hEq
    have h3 := congrArg List.head? hEq
    rw [List.head?_cons,
      show List.head? build_version_cmd = some 118 from rfl] at h3
    exact absurd (Option.some.inj h3) (by decide)
  have fdel : (str "delete ").isPrefixOf
      (build_cache_memlimit_cmd limit noreply) = false := by
    rw [hcons, show str "delete " = [100, 101, 108, 101, 116, 101, 32] from by decide]
    simp [List.isPrefixOf]
  have fincr : (str "incr ").isPrefixOf
      (build_cache_memlimit_cmd limit noreply) = false := by
    rw [hcons, show str "incr " = [105, 110, 99, 114, 32] from by decide]
    simp [List.isPrefixOf]
  have fdecr : (str "decr ").isPrefixOf
      (build_cache_memlimit_cmd limit noreply) = false := by
    rw [hcons, show str "decr " = [100, 101, 99, 114, 32] from by decide]
    simp [List.isPrefixOf]
  have ftch : (str "touch ").isPrefixOf
      (build_cache_memlimit_cmd limit noreply) = false := by
    rw [hcons, show str "touch " = [116, 111, 117, 99, 104, 32] from by decide]
    simp [List.isPrefixOf]
  have hquit : ¬(build_cache_memlimit_cmd limit noreply = build_quit_cmd) := by
    rw [hcons]
    intro hEq
    have h3 := congrArg List.head? hEq
    rw [List.head?_cons,
      show List.head? build_quit_cmd = some 113 from rfl] at h3
    exact absurd (Option.some.inj h3) (by decide)
  have fshut : (str "shutdown").isPrefixOf
      (build_cache_memlimit_cmd limit noreply) = false := by
    rw [hcons, show str "shutdown" = [115, 104, 117, 116, 100, 111, 119, 110] from by decide]
    simp [List.isPrefixOf]
  have ffla : (str "flush_all").isPrefixOf
      (build_cache_memlimit_cmd limit noreply) = false := by
    rw [hcons, show str "flush_all" = [102, 108, 117, 115, 104, 95, 97, 108, 108] from by decide]
    simp [List.isPrefixOf]
  have fown : (str "cache_memlimit ").isPrefixOf
      (build_cache_memlimit_cmd limit noreply) = true := by
    rw [hcons, show str "cache_memlimit " = [99, 97, 99, 104, 101, 95, 109, 101, 109, 108, 105, 109, 105, 116, 32] from by decide]
    simp [List.isPrefixOf]
  unfold execOne
  rw [if_neg (by simp [f1, f2, f3, f4]),
    if_neg (by simp [fauth]),
    if_neg (by simp [fvset, fvadd, fvrep, fvapp, fvpre, fvcas]),
    if_neg hver,
    if_neg (by simp [fdel]),
    if_neg (by simp [fincr, fdecr]),
    if_neg (by simp [ftch]),
    if_neg (by simp [fshut, hquit]),
    if_pos (by simp [fown]),
    noreply_sfx_memlimit_cmd]

/-! ## Claims -/

/-- Claim C4 (amended): each meta decoder maps `HD` (and, for mg/ma, `VA`)
to `success = true`, but maps to `success = false` only its own verb's
failure statuses — mg: `EN`; ms: `NS`/`EX`/`NF`; md: `NF`/`EX`;
ma: `NS`/`EX`/`NF` — and returns a protocol error carrying the line for
every other status token (including `NF` for mg, `EN` for ms/md/ma and
`NS` for md). -/
theorem claim_c4_amended_status_mapping (s : List Nat) :
    parse_mg_rp (str "HD\r\n" ++ s) = .ok ({ success := true }, s) ∧
    parse_mg_rp (str "EN\r\n" ++ s) = .ok ({ success := false }, s) ∧
    parse_mg_rp (str "NS\r\n" ++ s) = .error (.protocol (str "NS\r\n")) ∧
    parse_mg_rp (str "EX\r\n" ++ s) = .error (.protocol (str "EX\r\n")) ∧
    parse_mg_rp (str "NF\r\n" ++ s) = .error (.protocol (str "NF\r\n")) ∧
    parse_ms_rp (str "HD\r\n" ++ s) = .ok ({ success := true }, s) ∧
    parse_ms_rp (str "NS\r\n" ++ s) = .ok ({ success := false }, s) ∧
    parse_ms_rp (str "EX\r\n" ++ s) = .ok ({ success := false }, s) ∧
    parse_ms_rp (str "NF\r\n" ++ s) = .ok ({ success := false }, s) ∧
    parse_ms_rp (str "EN\r\n" ++ s) = .error (.protocol (str "EN\r\n")) ∧
    parse_ms_rp (str "VA 2\r\n" ++ s) = .error (.protocol (str "VA 2\r\n")) ∧
    parse_md_rp (str "HD\r\n" ++ s) = .ok ({ success := true }, s) ∧
    parse_md_rp (str "NF\r\n" ++ s) = .ok ({ success := false }, s) ∧
    parse_md_rp (str "EX\r\n" ++ s) = .ok ({ success := false }, s) ∧
    parse_md_rp (str "EN\r\n" ++ s) = .error (.protocol (str "EN\r\n")) ∧
    parse_md_rp (str "NS\r\n" ++ s) = .error (.protocol (str "NS\r\n")) ∧
    parse_md_rp (str "VA 2\r\n" ++ s) = .error (.protocol (str "VA 2\r\n")) ∧
    parse_ma_rp (str "HD\r\n" ++ s) = .ok ({ success := true }, s) ∧
    parse_ma_rp (str "NS\r\n" ++ s) = .ok ({ success := false }, s) ∧
    parse_ma_rp (str "EX\r\n" ++ s) = .ok ({ success := false }, s) ∧
    parse_ma_rp (str "NF\r\n" ++ s) = .ok ({ success := false }, s) ∧
    parse_ma_rp (str "EN\r\n" ++ s) = .error (.protocol (str "EN\r\n")) ∧
    parse_mg_rp (str "VA 0\r\nab" ++ s) = .ok ({ success := true, data_block := some [] }, s) ∧
    parse_ma_rp (str "VA 2\r\n10\r\n" ++ s) = .ok ({ success := true, number := some 10 }, s) := by
  refine ⟨?_, ?_, ?_, ?_, ?_, ?_, ?_, ?_, ?_, ?_, ?_, ?_, ?_, ?_, ?_, ?_, ?_, ?_, ?_, ?_, ?_, ?_, ?_, ?_⟩
  · unfold parse_mg_rp
    rw [show str "HD\r\n" ++ s = (str "HD\r" ++ [10]) ++ s from rfl,
      readLine_concrete (str "HD\r") s (by decide)]
    simp [show trimEnd (str "HD\r" ++ [10]) = str "HD" from by decide,
  show splitSpaces (str "HD") = [str "HD"] from by decide,
  show ((str "VA").isPrefixOf (str "HD\r" ++ [10])) = false from by decide,
  show ((str "HD").isPrefixOf (str "HD\r" ++ [10])) = true from by decide,
  show ((str "EN").isPrefixOf (str "HD\r" ++ [10])) = false from by decide,
  mgFlags, mgInit, Except.map]
  · unfold parse_mg_rp
    rw [show str "EN\r\n" ++ s = (str "EN\r" ++ [10]) ++ s from rfl,
      readLine_concrete (str "EN\r") s (by decide)]
    simp [show trimEnd (str "EN\r" ++ [10]) = str "EN" from by decide,
  show splitSpaces (str "EN") = [str "EN"] from by decide,
  show ((str "VA").isPrefixOf (str "EN\r" ++ [10])) = false from by decide,
  show ((str "HD").isPrefixOf (str "EN\r" ++ [10])) = false from by decide,
  show ((str "EN").isPrefixOf (str "EN\r" ++ [10])) = true from by decide,
  mgFlags, mgInit, Except.map]
  · unfold parse_mg_rp
    rw [show str "NS\r\n" ++ s = (str "NS\r" ++ [10]) ++ s from rfl,
      readLine_concrete (str "NS\r") s (by decide)]
    simp [show ((str "VA").isPrefixOf (str "NS\r" ++ [10])) = false from by decide,
  show ((str "HD").isPrefixOf (str "NS\r" ++ [10])) = false from by decide,
  show ((str "EN").isPrefixOf (str "NS\r" ++ [10])) = false from by decide,
  mgFlags, mgInit, Except.map]
    decide
  · unfold parse_mg_rp
    rw [show str "EX\r\n" ++ s = (str "EX\r" ++ [10]) ++ s from rfl,
      readLine_concrete (str "EX\r") s (by decide)]
    simp [show ((str "VA").isPrefixOf (str "EX\r" ++ [10])) = false from by decide,
  show ((str "HD").isPrefixOf (str "EX\r" ++ [10])) = false from by decide,
  show ((str "EN").isPrefixOf (str "EX\r" ++ [10])) = false from by decide,
  mgFlags, mgInit, Except.map]
    decide
  · unfold parse_mg_rp
    rw [show str "NF\r\n" ++ s = (str "NF\r" ++ [10]) ++ s from rfl,
      readLine_concrete (str "NF\r") s (by decide)]
    simp [show ((str "VA").isPrefixOf (str "NF\r" ++ [10])) = false from by decide,
  show ((str "HD").isPrefixOf (str "NF\r" ++ [10])) = false from by decide,
  show ((str "EN").isPrefixOf (str "NF\r" ++ [10])) = false from by decide,
  mgFlags, mgInit, Except.map]
    decide
  · unfold parse_ms_rp
    rw [show str "HD\r\n" ++ s = (str "HD\r" ++ [10]) ++ s from rfl,
      readLine_concrete (str "HD\r") s (by decide)]
    simp [show trimEnd (str "HD\r" ++ [10]) = str "HD" from by decide,
  show splitSpaces (str "HD") = [str "HD"] from by decide,
  show ((str "HD").isPrefixOf (str "HD\r" ++ [10])) = true from by decide,
  show ((str "NS").isPrefixOf (str "HD\r" ++ [10])) = false from by decide,
  show ((str "EX").isPrefixOf (str "HD\r" ++ [10])) = false from by decide,
  show ((str "NF").isPrefixOf (str "HD\r" ++ [10])) = false from by decide,
  msFlags, msInit, Except.map]
  · unfold parse_ms_rp
    rw [show str "NS\r\n" ++ s = (str "NS\r" ++ [10]) ++ s from rfl,
      readLine_concrete (str "NS\r") s (by decide)]
    simp [show trimEnd (str "NS\r" ++ [10]) = str "NS" from by decide,
  show splitSpaces (str "NS") = [str "NS"] from by decide,
  show ((str "HD").isPrefixOf (str "NS\r" ++ [10])) = false from by decide,
  show ((str "NS").isPrefixOf (str "NS\r" ++ [10])) = true from by decide,
  show ((str "EX").isPrefixOf (str "NS\r" ++ [10])) = false from by decide,
  show ((str "NF").isPrefixOf (str "NS\r" ++ [10])) = false from by decide,
  msFlags, msInit, Except.map]
  · unfold parse_ms_rp
    rw [show str "EX\r\n" ++ s = (str "EX\r" ++ [10]) ++ s from rfl,
      readLine_concrete (str "EX\r") s (by decide)]
    simp [show trimEnd (str "EX\r" ++ [10]) = str "EX" from by decide,
  show splitSpaces (str "EX") = [str "EX"] from by decide,
  show ((str "HD").isPrefixOf (str "EX\r" ++ [10])) = false from by decide,
  show ((str "NS").isPrefixOf (str "EX\r" ++ [10])) = false from by decide,
  show ((str "EX").isPrefixOf (str "EX\r" ++ [10])) = true from by decide,
  show ((str "NF").isPrefixOf (str "EX\r" ++ [10])) = false from by decide,
  msFlags, msInit, Except.map]
  · unfold parse_ms_rp
    rw [show str "NF\r\n" ++ s = (str "NF\r" ++ [10]) ++ s from rfl,
      readLine_concrete (str "NF\r") s (by decide)]
    simp [show trimEnd (str "NF\r" ++ [10]) = str "NF" from by decide,
  show splitSpaces (str "NF") = [str "NF"] from by decide,
  show ((str "HD").isPrefixOf (str "NF\r" ++ [10])) = false from by decide,
  show ((str "NS").isPrefixOf (str "NF\r" ++ [10])) = false from by decide,
  show ((str "EX").isPrefixOf (str "NF\r" ++ [10])) = false from by decide,
  show ((str "NF").isPrefixOf (str "NF\r" ++ [10])) = true from by decide,
  msFlags, msInit, Except.map]
  · unfold parse_ms_rp
    rw [show str "EN\r\n" ++ s = (str "EN\r" ++ [10]) ++ s from rfl,
      readLine_concrete (str "EN\r") s (by decide)]
    simp [show ((str "HD").isPrefixOf (str "EN\r" ++ [10])) = false from by decide,
  show ((str "NS").isPrefixOf (str "EN\r" ++ [10])) = false from by decide,
  show ((str "EX").isPrefixOf (str "EN\r" ++ [10])) = false from by decide,
  show ((str "NF").isPrefixOf (str "EN\r" ++ [10])) = false from by decide,
  msFlags, msInit, Except.map]
    decide
  · unfold parse_ms_rp
    rw [show str "VA 2\r\n" ++ s = (str "VA 2\r" ++ [10]) ++ s from rfl,
      readLine_concrete (str "VA 2\r") s (by decide)]
    simp [show ((str "HD").isPrefixOf (str "VA 2\r" ++ [10])) = false from by decide,
  show ((str "NS").isPrefixOf (str "VA 2\r" ++ [10])) = false from by decide,
  show ((str "EX").isPrefixOf (str "VA 2\r" ++ [10])) = false from by decide,
  show ((str "NF").isPrefixOf (str "VA 2\r" ++ [10])) = false from by decide,
  msFlags, msInit, Except.map]
    decide
  · unfold parse_md_rp
    rw [show str "HD\r\n" ++ s = (str "HD\r" ++ [10]) ++ s from rfl,
      readLine_concrete (str "HD\r") s (by decide)]
    simp [show trimEnd (str "HD\r" ++ [10]) = str "HD" from by decide,
  show splitSpaces (str "HD") = [str "HD"] from by decide,
  show ((str "HD").isPrefixOf (str "HD\r" ++ [10])) = true from by decide,
  show ((str "NF").isPrefixOf (str "HD\r" ++ [10])) = false from by decide,
  show ((str "EX").isPrefixOf (str "HD\r" ++ [10])) = false from by decide,
  mdFlags, mdInit, Except.map]
  · unfold parse_md_rp
    rw [show str "NF\r\n" ++ s = (str "NF\r" ++ [10]) ++ s from rfl,
      readLine_concrete (str "NF\r") s (by decide)]
    simp [show trimEnd (str "NF\r" ++ [10]) = str "NF" from by decide,
  show splitSpaces (str "NF") = [str "NF"] from by decide,
  show ((str "HD").isPrefixOf (str "NF\r" ++ [10])) = false from by decide,
  show ((str "NF").isPrefixOf (str "NF\r" ++ [10])) = true from by decide,
  show ((str "EX").isPrefixOf (str "NF\r" ++ [10])) = false from by decide,
  mdFlags, mdInit, Except.map]
  · unfold parse_md_rp
    rw [show str "EX\r\n" ++ s = (str "EX\r" ++ [10]) ++ s from rfl,
      readLine_concrete (str "EX\r") s (by decide)]
    simp [show trimEnd (str "EX\r" ++ [10]) = str "EX" from by decide,
  show splitSpaces (str "EX") = [str "EX"] from by decide,
  show ((str "HD").isPrefixOf (str "EX\r" ++ [10])) = false from by decide,
  show ((str "NF").isPrefixOf (str "EX\r" ++ [10])) = false from by decide,
  show ((str "EX").isPrefixOf (str "EX\r" ++ [10])) = true from by decide,
  mdFlags, mdInit, Except.map]
  · unfold parse_md_rp
    rw [show str "EN\r\n" ++ s = (str "EN\r" ++ [10]) ++ s from rfl,
      readLine_concrete (str "EN\r") s (by decide)]
    simp [show ((str "HD").isPrefixOf (str "EN\r" ++ [10])) = false from by decide,
  show ((str "NF").isPrefixOf (str "EN\r" ++ [10])) = false from by decide,
  show ((str "EX").isPrefixOf (str "EN\r" ++ [10])) = false from by decide,
  mdFlags, mdInit, Except.map]
    decide
  · unfold parse_md_rp
    rw [show str "NS\r\n" ++ s = (str "NS\r" ++ [10]) ++ s from rfl,
      readLine_concrete (str "NS\r") s (by decide)]
    simp [show ((str "HD").isPrefixOf (str "NS\r" ++ [10])) = false from by decide,
  show ((str "NF").isPrefixOf (str "NS\r" ++ [10])) = false from by decide,
  show ((str "EX").isPrefixOf (str "NS\r" ++ [10])) = false from by decide,
  mdFlags, mdInit, Except.map]
    decide
  · unfold parse_md_rp
    rw [show str "VA 2\r\n" ++ s = (str "VA 2\r" ++ [10]) ++ s from rfl,
      readLine_concrete (str "VA 2\r") s (by decide)]
    simp [show ((str "HD").isPrefixOf (str "VA 2\r" ++ [10])) = false from by decide,
  show ((str "NF").isPrefixOf (str "VA 2\r" ++ [10])) = false from by decide,
  show ((str "EX").isPrefixOf (str "VA 2\r" ++ [10])) = false from by decide,
  mdFlags, mdInit, Except.map]
    decide
  · unfold parse_ma_rp
    rw [show str "HD\r\n" ++ s = (str "HD\r" ++ [10]) ++ s from rfl,
      readLine_concrete (str "HD\r") s (by decide)]
    simp [show trimEnd (str "HD\r" ++ [10]) = str "HD" from by decide,
  show splitSpaces (str "HD") = [str "HD"] from by decide,
  show ((str "VA").isPrefixOf (str "HD\r" ++ [10])) = false from by decide,
  show ((str "HD").isPrefixOf (str "HD\r" ++ [10])) = true from by decide,
  show ((str "NS").isPrefixOf (str "HD\r" ++ [10])) = false from by decide,
  show ((str "EX").isPrefixOf (str "HD\r" ++ [10])) = false from by decide,
  show ((str "NF").isPrefixOf (str "HD\r" ++ [10])) = false from by decide,
  maFlags, maInit, Except.map]
  · unfold parse_ma_rp
    rw [show str "NS\r\n" ++ s = (str "NS\r" ++ [10]) ++ s from rfl,
      readLine_concrete (str "NS\r") s (by decide)]
    simp [show trimEnd (str "NS\r" ++ [10]) = str "NS" from by decide,
  show splitSpaces (str "NS") = [str "NS"] from by decide,
  show ((str "VA").isPrefixOf (str "NS\r" ++ [10])) = false from by decide,
  show ((str "HD").isPrefixOf (str "NS\r" ++ [10])) = false from by decide,
  show ((str "NS").isPrefixOf (str "NS\r" ++ [10])) = true from by decide,
  show ((str "EX").isPrefixOf (str "NS\r" ++ [10])) = false from by decide,
  show ((str "NF").isPrefixOf (str "NS\r" ++ [10])) = false from by decide,
  maFlags, maInit, Except.map]
  · unfold parse_ma_rp
    rw [show str "EX\r\n" ++ s = (str "EX\r" ++ [10]) ++ s from rfl,
      readLine_concrete (str "EX\r") s (by decide)]
    simp [show trimEnd (str "EX\r" ++ [10]) = str "EX" from by decide,
  show splitSpaces (str "EX") = [str "EX"] from by decide,
  show ((str "VA").isPrefixOf (str "EX\r" ++ [10])) = false from by decide,
  show ((str "HD").isPrefixOf (str "EX\r" ++ [10])) = false from by decide,
  show ((str "NS").isPrefixOf (str "EX\r" ++ [10])) = false from by decide,
  show ((str "EX").isPrefixOf (str "EX\r" ++ [10])) = true from by decide,
  show ((str "NF").isPrefixOf (str "EX\r" ++ [10])) = false from by decide,
  maFlags, maInit, Except.map]
  · unfold parse_ma_rp
    rw [show str "NF\r\n" ++ s = (str "NF\r" ++ [10]) ++ s from rfl,
      readLine_concrete (str "NF\r") s (by decide)]
    simp [show trimEnd (str "NF\r" ++ [10]) = str "NF" from by decide,
  show splitSpaces (str "NF") = [str "NF"] from by decide,
  show ((str "VA").isPrefixOf (str "NF\r" ++ [10])) = false from by decide,
  show ((str "HD").isPrefixOf (str "NF\r" ++ [10])) = false from by decide,
  show ((str "NS").isPrefixOf (str "NF\r" ++ [10])) = false from by decide,
  show ((str "EX").isPrefixOf (str "NF\r" ++ [10])) = false from by decide,
  show ((str "NF").isPrefixOf (str "NF\r" ++ [10])) = true from by decide,
  maFlags, maInit, Except.map]
  · unfold parse_ma_rp
    rw [show str "EN\r\n" ++ s = (str "EN\r" ++ [10]) ++ s from rfl,
      readLine_concrete (str "EN\r") s (by decide)]
    simp [show ((str "VA").isPrefixOf (str "EN\r" ++ [10])) = false from by decide,
  show ((str "HD").isPrefixOf (str "EN\r" ++ [10])) = false from by decide,
  show ((str "NS").isPrefixOf (str "EN\r" ++ [10])) = false from by decide,
  show ((str "EX").isPrefixOf (str "EN\r" ++ [10])) = false from by decide,
  show ((str "NF").isPrefixOf (str "EN\r" ++ [10])) = false from by decide,
  maFlags, maInit, Except.map]
    decide
  · unfold parse_mg_rp
    rw [show str "VA 0\r\nab" ++ s = (str "VA 0\r" ++ [10]) ++ (97 :: 98 :: s) from rfl,
      readLine_concrete (str "VA 0\r") (97 :: 98 :: s) (by decide)]
    simp [show trimEnd (str "VA 0\r" ++ [10]) = str "VA 0" from by decide,
      show splitSpaces (str "VA 0") = [str "VA", str "0"] from by decide,
      show ((str "VA").isPrefixOf (str "VA 0\r" ++ [10])) = true from by decide,
      show parseNat (str "0") = some 0 from by decide,
      mgFlags, mgInit, unwrapO, readExact_two, Except.map]
  · unfold parse_ma_rp
    rw [show str "VA 2\r\n10\r\n" ++ s = (str "VA 2\r" ++ [10]) ++ ((str "10\r" ++ [10]) ++ s) from rfl,
      readLine_concrete (str "VA 2\r") ((str "10\r" ++ [10]) ++ s) (by decide)]
    simp [show trimEnd (str "VA 2\r" ++ [10]) = str "VA 2" from by decide,
      show splitSpaces (str "VA 2") = [str "VA", str "2"] from by decide,
      show ((str "VA").isPrefixOf (str "VA 2\r" ++ [10])) = true from by decide,
      show parseNat (str "2") = some 2 from by decide,
      show readLine (str "10\r" ++ 10 :: s) = (str "10\r" ++ [10], s)
        from by simpa using readLine_append (str "10\r") s (by decide),
      show (str "10\r" ++ [10]).take 2 = str "10" from by decide,
      show parseNat (str "10") = some 10 from by decide,
      maFlags, maInit, unwrapO, Except.map]

/-- Claim C4 (counterexample to the original wording): for the mg decoder
the status `NF` is not mapped to `success = false` — it is rejected as a
protocol error carrying the line. -/
theorem claim_c4_counterexample :
    parse_mg_rp (str "NF\r\n") = .error (.protocol (str "NF\r\n")) := by
  decide

/-- Claim C1: inside the pipeline dispatcher, an encoded `get`/`gets`
command is decoded as a single item-or-none (`PipelineResponse.OptionItem`,
popping the last decoded item) exactly when the encoded bytes contain one
space, and as a list of items (`PipelineResponse.VecItem`) when they
contain more; `gat`/`gats` follow the same rule shifted by one token
(exactly two spaces ⇒ single-key) because of the leading expiry token. -/
theorem claim_c1_retrieval_classification (cmd s : List Nat) :
    (((str "get ").isPrefixOf cmd = true ∨ (str "gets ").isPrefixOf cmd = true) →
      (cmd.count 32 = 1 →
        execOne cmd s
          = liftRp (fun items => .OptionItem items.getLast?) (parse_retrieval_rp s)) ∧
      (cmd.count 32 ≠ 1 →
        execOne cmd s = liftRp .VecItem (parse_retrieval_rp s))) ∧
    (((str "gat ").isPrefixOf cmd = true ∨ (str "gats ").isPrefixOf cmd = true) →
      (cmd.count 32 = 2 →
        execOne cmd s
          = liftRp (fun items => .OptionItem items.getLast?) (parse_retrieval_rp s)) ∧
      (cmd.count 32 ≠ 2 →
        execOne cmd s = liftRp .VecItem (parse_retrieval_rp s))) := by
  constructor
  · rintro (hpre | hpre)
    all_goals
      obtain ⟨r, rfl⟩ : ∃ r, cmd = _ ++ r := by
        obtain ⟨r, hr⟩ := List.isPrefixOf_iff_prefix.mp hpre
        exact ⟨r, hr.symm⟩
    -- `get ` case
    case left.inl.intro =>
      have hfam : (str "gets ").isPrefixOf (str "get " ++ r) = true ∨
          (str "get ").isPrefixOf (str "get " ++ r) = true ∨
          (str "gats ").isPrefixOf (str "get " ++ r) = true ∨
          (str "gat ").isPrefixOf (str "get " ++ r) = true := Or.inr (Or.inl hpre)
      have hgat : (str "gat").isPrefixOf (str "get " ++ r) = false := by
        rw [show str "gat" = [103, 97, 116] from rfl,
          show str "get " ++ r = 103 :: 101 :: 116 :: 32 :: r from rfl]
        simp [List.isPrefixOf]
      have hget3 : (str "get").isPrefixOf (str "get " ++ r) = true :=
        isPrefixOf_extend _ _ _ (by decide)
      refine ⟨fun hcount => ?_, fun hcount => ?_⟩
      · unfold execOne
        rw [if_pos hfam, if_pos (Or.inr ⟨hget3, hcount⟩)]
      · unfold execOne
        rw [if_pos hfam, if_neg ?_]
        rintro (⟨h1, _⟩ | ⟨_, h2⟩)
        · rw [hgat] at h1; cases h1
        · exact hcount h2
    -- `gets ` case
    case left.inr.intro =>
      have hfam : (str "gets ").isPrefixOf (str "gets " ++ r) = true ∨
          (str "get ").isPrefixOf (str "gets " ++ r) = true ∨
          (str "gats ").isPrefixOf (str "gets " ++ r) = true ∨
          (str "gat ").isPrefixOf (str "gets " ++ r) = true := Or.inl hpre
      have hgat : (str "gat").isPrefixOf (str "gets " ++ r) = false := by
        rw [show str "gat" = [103, 97, 116] from rfl,
          show str "gets " ++ r = 103 :: 101 :: 116 :: 115 :: 32 :: r from rfl]
        simp [List.isPrefixOf]
      have hget3 : (str "get").isPrefixOf (str "gets " ++ r) = true :=
        isPrefixOf_extend _ _ _ (by decide)
      refine ⟨fun hcount => ?_, fun hcount => ?_⟩
      · unfold execOne
        rw [if_pos hfam, if_pos (Or.inr ⟨hget3, hcount⟩)]
      · unfold execOne
        rw [if_pos hfam, if_neg ?_]
        rintro (⟨h1, _⟩ | ⟨_, h2⟩)
        · rw [hgat] at h1; cases h1
        · exact hcount h2
  · rintro (hpre | hpre)
    all_goals
      obtain ⟨r, rfl⟩ : ∃ r, cmd = _ ++ r := by
        obtain ⟨r, hr⟩ := List.isPrefixOf_iff_prefix.mp hpre
        exact ⟨r, hr.symm⟩
    -- `gat ` case
    case right.inl.intro =>
      have hfam : (str "gets ").isPrefixOf (str "gat " ++ r) = true ∨
          (str "get ").isPrefixOf (str "gat " ++ r) = true ∨
          (str "gats ").isPrefixOf (str "gat " ++ r) = true ∨
          (str "gat ").isPrefixOf (str "gat " ++ r) = true :=
        Or.inr (Or.inr (Or.inr hpre))
      have hgat3 : (str "gat").isPrefixOf (str "gat " ++ r) = true :=
        isPrefixOf_extend _ _ _ (by decide)
      have hget3 : (str "get").isPrefixOf (str "gat " ++ r) = false := by
        rw [show str "get" = [103, 101, 116] from rfl,
          show str "gat " ++ r = 103 :: 97 :: 116 :: 32 :: r from rfl]
        simp [List.isPrefixOf]
      refine ⟨fun hcount => ?_, fun hcount => ?_⟩
      · unfold execOne
        rw [if_pos hfam, if_pos (Or.inl ⟨hgat3, hcount⟩)]
      · unfold execOne
        rw [if_pos hfam, if_neg ?_]
        rintro (⟨_, h1⟩ | ⟨h2, _⟩)
        · exact hcount h1
        · rw [hget3] at h2; cases h2
    -- `gats ` case
    case right.inr.intro =>
      have hfam : (str "gets ").isPrefixOf (str "gats " ++ r) = true ∨
          (str "get ").isPrefixOf (str "gats " ++ r) = true ∨
          (str "gats ").isPrefixOf (str "gats " ++ r) = true ∨
          (str "gat ").isPrefixOf (str "gats " ++ r) = true :=
        Or.inr (Or.inr (Or.inl hpre))
      have hgat3 : (str "gat").isPrefixOf (str "gats " ++ r) = true :=
        isPrefixOf_extend _ _ _ (by decide)
      have hget3 : (str "get").isPrefixOf (str "gats " ++ r) = false := by
        rw [show str "get" = [103, 101, 116] from rfl,
          show str "gats " ++ r = 103 :: 97 :: 116 :: 115 :: 32 :: r from rfl]
        simp [List.isPrefixOf]
      refine ⟨fun hcount => ?_, fun hcount => ?_⟩
      · unfold execOne
        rw [if_pos hfam, if_pos (Or.inl ⟨hgat3, hcount⟩)]
      · unfold execOne
        rw [if_pos hfam, if_neg ?_]
        rintro (⟨_, h1⟩ | ⟨h2, _⟩)
        · exact hcount h1
        · rw [hget3] at h2; cases h2

/-- Witness for C1 on four concrete commands against an empty (`END`)
retrieval response: single-key `get`/`gat` decode to `OptionItem`,
multi-key `get`/`gats` to `VecItem`. -/
theorem claim_c1_retrieval_classification_witness :
    execOne (str "get k\r\n") (str "END\r\n") = .ok (.OptionItem none, []) ∧
    execOne (str "get k1 k2\r\n") (str "END\r\n") = .ok (.VecItem [], []) ∧
    execOne (str "gat 0 k\r\n") (str "END\r\n") = .ok (.OptionItem none, []) ∧
    execOne (str "gats 0 k1 k2\r\n") (str "END\r\n") = .ok (.VecItem [], []) := by
  refine ⟨?_, ?_, ?_, ?_⟩
  · have h := ((claim_c1_retrieval_classification (str "get k\r\n") (str "END\r\n")).1
      (Or.inl (by decide))).1 (by decide)
    rw [h, parse_retrieval_rp_end]
    decide
  · have h := ((claim_c1_retrieval_classification (str "get k1 k2\r\n") (str "END\r\n")).1
      (Or.inl (by decide))).2 (by decide)
    rw [h, parse_retrieval_rp_end]
    decide
  · have h := ((claim_c1_retrieval_classification (str "gat 0 k\r\n") (str "END\r\n")).2
      (Or.inl (by decide))).1 (by decide)
    rw [h, parse_retrieval_rp_end]
    decide
  · have h := ((claim_c1_retrieval_classification (str "gats 0 k1 k2\r\n") (str "END\r\n")).2
      (Or.inr (by decide))).2 (by decide)
    rw [h, parse_retrieval_rp_end]
    decide

/-- Claim C2: when every per-command decode succeeds, the pipeline executor
returns exactly one response per input command (`len(output) = len(input)`,
responses produced in input order by construction); and when the decode of
some command fails after a successfully decoded prefix, the whole call
returns that error — no partial vector of the already-decoded prefix is
exposed. -/
theorem claim_c2_pipeline_length_and_atomicity :
    (∀ (cmds : List (List Nat)) (s : List Nat) out s2,
      execute_cmd cmds s = .ok (out, s2) → out.length = cmds.length) ∧
    (∀ (cs cs2 : List (List Nat)) (c : List Nat) (s s1 : List Nat) r e,
      execute_cmd cs s = .ok (r, s1) → execOne c s1 = .error e →
      execute_cmd (cs ++ c :: cs2) s = .error e) := by
  constructor
  · intro cmds
    induction cmds with
    | nil =>
      intro s out s2 h
      simp only [execute_cmd] at h
      cases h
      rfl
    | cons a as ih =>
      intro s out s2 h
      simp only [execute_cmd] at h
      cases h1 : execOne a s with
      | error e => simp only [h1] at h; exact Except.noConfusion h
      | ok rt =>
        obtain ⟨r1, t1⟩ := rt
        simp only [h1] at h
        cases h2 : execute_cmd as t1 with
        | error e => simp only [h2] at h; exact Except.noConfusion h
        | ok rss =>
          obtain ⟨rs, t2⟩ := rss
          simp only [h2, Except.ok.injEq, Prod.mk.injEq] at h
          obtain ⟨rfl, rfl⟩ := h
          simpa using ih t1 rs t2 h2
  · intro cs
    induction cs with
    | nil =>
      intro cs2 c s s1 r e hok herr
      simp only [execute_cmd] at hok
      cases hok
      simpa [execute_cmd, herr] using rfl
    | cons a as ih =>
      intro cs2 c s s1 r e hok herr
      simp only [execute_cmd] at hok
      cases h1 : execOne a s with
      | error e2 => simp only [h1] at hok; exact Except.noConfusion hok
      | ok rt =>
        obtain ⟨r1, t1⟩ := rt
        simp only [h1] at hok
        cases h2 : execute_cmd as t1 with
        | error e2 => simp only [h2] at hok; exact Except.noConfusion hok
        | ok rss =>
          obtain ⟨rs, t2⟩ := rss
          simp only [h2, Except.ok.injEq, Prod.mk.injEq] at hok
          obtain ⟨h3, h4⟩ := hok
          subst h4
          have hrec := ih cs2 c t1 t2 rs e h2 herr
          simp only [List.cons_append, execute_cmd, List.append_eq, h1, hrec]

/-- Witness for C2: a two-command batch (`version`, `mn`) against a fully
valid response stream has output length 2; against a stream whose second
response is malformed, the whole call returns the protocol error. -/
theorem claim_c2_pipeline_length_and_atomicity_witness :
    ([PipelineResponse.String (str "1"), PipelineResponse.Unit].length
      = [build_version_cmd, build_mn_cmd].length) ∧
    execute_cmd [build_version_cmd, build_mn_cmd] (str "VERSION 1\r\nXX\r\n")
      = .error (.protocol (str "XX\r\n")) := by
  constructor
  · exact claim_c2_pipeline_length_and_atomicity.1 [build_version_cmd, build_mn_cmd]
      (str "VERSION 1\r\nMN\r\n") [.String (str "1"), .Unit] [] (by decide)
  · exact claim_c2_pipeline_length_and_atomicity.2 [build_version_cmd] []
      build_mn_cmd (str "VERSION 1\r\nXX\r\n") (str "XX\r\n") [.String (str "1")]
      (.protocol (str "XX\r\n")) (by decide) (by decide)

/-- Claim C5 (code defect): a meta response line carrying a flag token whose
leading letter is outside the verb's vocabulary (here `q`) makes every meta
decoder hit the source's `unreachable!` — a process abort, modelled as
`Err.panicked` — instead of returning the protocol error carrying the
offending line that the specification requires. -/
theorem claim_c5_unknown_flag_panics :
    parse_mg_rp (str "HD q5\r\n") = .error .panicked ∧
    parse_ms_rp (str "HD q5\r\n") = .error .panicked ∧
    parse_md_rp (str "HD q5\r\n") = .error .panicked ∧
    parse_ma_rp (str "HD q5\r\n") = .error .panicked ∧
    parse_mg_rp (str "VA 2 q5\r\nab" ) = .error .panicked := by
  decide

/-- Claim C6 (code defect): a malformed numeric field in a `VALUE` header
(non-numeric flags or byte count), a non-numeric meta flag argument, and a
non-numeric `ma` payload all hit a panicking `parse().unwrap()`
(`Err.panicked`) instead of the protocol error the specification requires;
only the incr/decr decoder really returns the protocol error (and
otherwise parses `NOT_FOUND` / a decimal value as specified). -/
theorem claim_c6_malformed_numeric :
    parse_retrieval_rp (str "VALUE k abc 5\r\nhello\r\nEND\r\n") = .error .panicked ∧
    parse_retrieval_rp (str "VALUE k 0 xx\r\n") = .error .panicked ∧
    parse_mg_rp (str "HD c7x\r\n") = .error .panicked ∧
    parse_ma_rp (str "VA 2\r\nxy\r\n") = .error .panicked ∧
    parse_incr_decr_rp false (str "abc\r\n") = .error (.protocol (str "abc\r\n")) ∧
    parse_incr_decr_rp false (str "7\r\n") = .ok (some 7, []) ∧
    parse_incr_decr_rp false (str "NOT_FOUND\r\n") = .ok (none, []) := by
  refine ⟨?_, ?_, by decide, by decide, by decide, by decide, by decide⟩
  · unfold parse_retrieval_rp
    rw [show readLine (str "VALUE k abc 5\r\nhello\r\nEND\r\n")
        = (str "VALUE k abc 5\r\n", str "hello\r\nEND\r\n") from by decide]
    rw [parseRetrievalGo]
    rw [show ((str "VALUE").isPrefixOf (str "VALUE k abc 5\r\n")) = true from by decide,
      show parseValueHeader (str "VALUE k abc 5\r\n") = .error .panicked from by decide]
    simp
  · unfold parse_retrieval_rp
    rw [show readLine (str "VALUE k 0 xx\r\n") = (str "VALUE k 0 xx\r\n", []) from by decide]
    rw [parseRetrievalGo]
    rw [show ((str "VALUE").isPrefixOf (str "VALUE k 0 xx\r\n")) = true from by decide,
      show parseValueHeader (str "VALUE k 0 xx\r\n") = .error .panicked from by decide]
    simp

/-- Claim C7: a retrieval response header declaring byte count `n` makes the
decoder read exactly `n + 2` octets after the header line — the data bytes
are arbitrary (never scanned for a terminator, so they may contain CR/LF)
and the two trailing framing bytes `t1 t2` are arbitrary and discarded —
returning an `Item` whose `data_block` is exactly the `n` data bytes. -/
theorem claim_c7_retrieval_framing (key data : List Nat) (flags n t1 t2 : Nat)
    (hdata : data.length = n) (hk32 : 32 ∉ key) (hk13 : 13 ∉ key) (hk10 : 10 ∉ key) :
    parse_retrieval_rp (str "VALUE " ++ key ++ str " " ++ natDec flags ++ str " "
        ++ natDec n ++ str "\r\n" ++ data ++ t1 :: t2 :: str "END\r\n")
      = .ok ([⟨key, flags, none, data⟩], []) := by
  have hdf32 : 32 ∉ natDec flags := fun h => by
    have := natDec_digits flags 32 h; omega
  have hdn32 : 32 ∉ natDec n ++ [13, 10] := by
    intro h
    rcases List.mem_append.mp h with h | h
    · have := natDec_digits n 32 h; omega
    · simp at h
  have htrim : trimEnd (natDec n ++ [13, 10]) = natDec n := by
    obtain ⟨d, hd, h1, h2⟩ := natDec_getLast? n
    refine trimEnd_append _ _ ?_ d hd (by simp [isWs]; omega)
    intro x hx
    simp only [List.mem_cons, List.not_mem_nil, or_false] at hx
    rcases hx with rfl | rfl <;> decide
  have h10A : 10 ∉ str "VALUE " ++ key ++ str " " ++ natDec flags ++ str " "
      ++ natDec n ++ [13] := by
    intro h
    simp only [List.mem_append] at h
    rcases h with ((((((h | h) | h) | h) | h) | h) | h)
    · revert h; decide
    · exact hk10 h
    · revert h; decide
    · have := natDec_digits flags 10 h; omega
    · revert h; decide
    · have := natDec_digits n 10 h; omega
    · simp at h
  have hform : str "VALUE " ++ key ++ str " " ++ natDec flags ++ str " "
        ++ natDec n ++ str "\r\n" ++ data ++ t1 :: t2 :: str "END\r\n"
      = (str "VALUE " ++ key ++ str " " ++ natDec flags ++ str " " ++ natDec n ++ [13])
        ++ 10 :: (data ++ t1 :: t2 :: str "END\r\n") := by
    simp [List.append_assoc, str]
  have hline := readLine_append _ (data ++ t1 :: t2 :: str "END\r\n") h10A
  have hsplitform : (str "VALUE " ++ key ++ str " " ++ natDec flags ++ str " "
        ++ natDec n ++ [13]) ++ [10]
      = str "VALUE" ++ 32 :: (key ++ 32 :: (natDec flags ++ 32 :: (natDec n ++ [13, 10]))) := by
    simp [List.append_assoc, str]
  have hsplit : splitSpaces ((str "VALUE " ++ key ++ str " " ++ natDec flags ++ str " "
        ++ natDec n ++ [13]) ++ [10])
      = [str "VALUE", key, natDec flags, natDec n ++ [13, 10]] := by
    rw [hsplitform, splitSpaces_append (str "VALUE") _ (by decide),
      splitSpaces_append key _ hk32, splitSpaces_append (natDec flags) _ hdf32,
      splitSpaces_no_space (natDec n ++ [13, 10]) hdn32]
  have hheader : parseValueHeader ((str "VALUE " ++ key ++ str " " ++ natDec flags
        ++ str " " ++ natDec n ++ [13]) ++ [10]) = .ok (key, flags, n, none) := by
    unfold parseValueHeader
    rw [hsplit]
    simp only [unwrapO, parseNat_natDec, htrim, Except.bind, bind, List.get?]
    rfl
  have hpre : (str "VALUE").isPrefixOf ((str "VALUE " ++ key ++ str " " ++ natDec flags
        ++ str " " ++ natDec n ++ [13]) ++ [10]) = true := by
    repeat apply isPrefixOf_extend
    decide
  have htake2 : (data ++ t1 :: t2 :: str "END\r\n").take (n + 2)
      = data ++ [t1, t2] := by
    rw [show data ++ t1 :: t2 :: str "END\r\n" = (data ++ [t1, t2]) ++ str "END\r\n" from
      by simp]
    exact List.take_left' (by simp [hdata])
  have hdrop2 : (data ++ t1 :: t2 :: str "END\r\n").drop (n + 2) = str "END\r\n" := by
    rw [show data ++ t1 :: t2 :: str "END\r\n" = (data ++ [t1, t2]) ++ str "END\r\n" from
      by simp]
    exact List.drop_left' (by simp [hdata])
  have hcond : n + 2 ≤ (data ++ t1 :: t2 :: str "END\r\n").length := by
    rw [List.length_append, hdata]
    simp only [List.length_cons, show (str "END\r\n").length = 5 from by decide]
    omega
  have htaken : (data ++ [t1, t2]).take n = data := by
    rw [← hdata]; exact List.take_left data [t1, t2]
  rw [hform]
  unfold parse_retrieval_rp
  rw [hline]
  rw [parseRetrievalGo, hpre, if_pos rfl, hheader]
  simp only [hcond, dite_true, htake2, hdrop2,
    show readLine (str "END\r\n") = (str "END\r\n", []) from by decide,
    parseRetrievalGo_end, htaken]

/-- Witness for C7 on the specification's own example: the stream
`VALUE key 0 5\r\nhello\r\nEND\r\n` decodes to one item with
`data_block = "hello"` and the whole stream consumed. -/
theorem claim_c7_retrieval_framing_witness :
    parse_retrieval_rp (str "VALUE " ++ str "key" ++ str " " ++ natDec 0 ++ str " "
        ++ natDec 5 ++ str "\r\n" ++ str "hello" ++ 13 :: 10 :: str "END\r\n")
      = .ok ([⟨str "key", 0, none, str "hello"⟩], []) :=
  claim_c7_retrieval_framing (str "key") (str "hello") 0 5 13 10
    (by decide) (by decide) (by decide) (by decide)

/-- Claim C8: for every successfully decoded meta item with an `HD` status
line, each optional field is `Some` exactly when a flag token with that
field's single-letter leading byte appears among the space-separated
tokens of the response line, and each boolean flag field is `true` exactly
when its letter appears; a flag absent from the reply decodes to `none`
(or `false`), never to a substituted value, and the payload fields
(`data_block` for mg, `number` for ma) stay `none` on `HD` lines. -/
theorem claim_c8_meta_flag_fields :
    (∀ (s : List Nat) (it : MgItem) (rest : List Nat),
      parse_mg_rp s = .ok (it, rest) →
      (str "HD").isPrefixOf (readLine s).1 = true →
      it.success = true ∧
      it.data_block = none ∧
      (it.base64_key = true ↔ hasFlagTok 98 ((splitSpaces (trimEnd (readLine s).1)).drop 1)) ∧
      (it.cas.isSome ↔ hasFlagTok 99 ((splitSpaces (trimEnd (readLine s).1)).drop 1)) ∧
      (it.flags.isSome ↔ hasFlagTok 102 ((splitSpaces (trimEnd (readLine s).1)).drop 1)) ∧
      (it.hit.isSome ↔ hasFlagTok 104 ((splitSpaces (trimEnd (readLine s).1)).drop 1)) ∧
      (it.key.isSome ↔ hasFlagTok 107 ((splitSpaces (trimEnd (readLine s).1)).drop 1)) ∧
      (it.last_access_ttl.isSome ↔ hasFlagTok 108 ((splitSpaces (trimEnd (readLine s).1)).drop 1)) ∧
      (it.opaq.isSome ↔ hasFlagTok 79 ((splitSpaces (trimEnd (readLine s).1)).drop 1)) ∧
      (it.size.isSome ↔ hasFlagTok 115 ((splitSpaces (trimEnd (readLine s).1)).drop 1)) ∧
      (it.ttl.isSome ↔ hasFlagTok 116 ((splitSpaces (trimEnd (readLine s).1)).drop 1)) ∧
      (it.won_recache = true ↔ hasFlagTok 87 ((splitSpaces (trimEnd (readLine s).1)).drop 1)) ∧
      (it.stale = true ↔ hasFlagTok 88 ((splitSpaces (trimEnd (readLine s).1)).drop 1)) ∧
      (it.already_win = true ↔ hasFlagTok 90 ((splitSpaces (trimEnd (readLine s).1)).drop 1))) ∧
    (∀ (s : List Nat) (it : MsItem) (rest : List Nat),
      parse_ms_rp s = .ok (it, rest) →
      (str "HD").isPrefixOf (readLine s).1 = true →
      it.success = true ∧
      (it.cas.isSome ↔ hasFlagTok 99 ((splitSpaces (trimEnd (readLine s).1)).drop 1)) ∧
      (it.key.isSome ↔ hasFlagTok 107 ((splitSpaces (trimEnd (readLine s).1)).drop 1)) ∧
      (it.opaq.isSome ↔ hasFlagTok 79 ((splitSpaces (trimEnd (readLine s).1)).drop 1)) ∧
      (it.size.isSome ↔ hasFlagTok 115 ((splitSpaces (trimEnd (readLine s).1)).drop 1)) ∧
      (it.base64_key = true ↔ hasFlagTok 98 ((splitSpaces (trimEnd (readLine s).1)).drop 1))) ∧
    (∀ (s : List Nat) (it : MdItem) (rest : List Nat),
      parse_md_rp s = .ok (it, rest) →
      (str "HD").isPrefixOf (readLine s).1 = true →
      it.success = true ∧
      (it.key.isSome ↔ hasFlagTok 107 ((splitSpaces (trimEnd (readLine s).1)).drop 1)) ∧
      (it.opaq.isSome ↔ hasFlagTok 79 ((splitSpaces (trimEnd (readLine s).1)).drop 1)) ∧
      (it.base64_key = true ↔ hasFlagTok 98 ((splitSpaces (trimEnd (readLine s).1)).drop 1))) ∧
    (∀ (s : List Nat) (it : MaItem) (rest : List Nat),
      parse_ma_rp s = .ok (it, rest) →
      (str "HD").isPrefixOf (readLine s).1 = true →
      it.success = true ∧
      it.number = none ∧
      (it.opaq.isSome ↔ hasFlagTok 79 ((splitSpaces (trimEnd (readLine s).1)).drop 1)) ∧
      (it.ttl.isSome ↔ hasFlagTok 116 ((splitSpaces (trimEnd (readLine s).1)).drop 1)) ∧
      (it.cas.isSome ↔ hasFlagTok 99 ((splitSpaces (trimEnd (readLine s).1)).drop 1)) ∧
      (it.key.isSome ↔ hasFlagTok 107 ((splitSpaces (trimEnd (readLine s).1)).drop 1)) ∧
      (it.base64_key = true ↔ hasFlagTok 98 ((splitSpaces (trimEnd (readLine s).1)).drop 1))) := by
  refine ⟨?_, ?_, ?_, ?_⟩
  · intro s it rest hp hhd
    obtain ⟨u, hu⟩ : ∃ u, (readLine s).1 = 72 :: 68 :: u := by
      obtain ⟨r, hr⟩ := List.isPrefixOf_iff_prefix.mp hhd
      exact ⟨r, hr.symm⟩
    have hva : (str "VA").isPrefixOf (72 :: 68 :: u) = false := by
      rw [show str "VA" = [86, 65] from rfl]
      simp [List.isPrefixOf]
    have hhd2 : (str "HD").isPrefixOf (72 :: 68 :: u) = true := by
      rw [show str "HD" = [72, 68] from rfl]
      simp [List.isPrefixOf]
    simp only [parse_mg_rp] at hp
    rw [hu] at hp ⊢
    simp only [hva, Bool.false_eq_true, if_false, hhd2, if_true] at hp
    cases hmg : mgFlags ((splitSpaces (trimEnd (72 :: 68 :: u))).drop 1) (mgInit true) with
    | error e => rw [hmg] at hp; exact absurd hp (by simp [Except.map])
    | ok itv =>
      rw [hmg] at hp
      simp only [Except.map, Except.ok.injEq, Prod.mk.injEq] at hp
      obtain ⟨rfl, rfl⟩ := hp
      obtain ⟨x0, x1, x2, x3, x4, x5, x6, x7, x8, x9, x10, x11, x12, x13⟩ :=
        mgFlags_fields _ _ _ hmg
      exact ⟨x0, x1, by rw [x2]; simp [mgInit], by rw [x3]; simp [mgInit], by rw [x4]; simp [mgInit], by rw [x5]; simp [mgInit], by rw [x6]; simp [mgInit], by rw [x7]; simp [mgInit], by rw [x8]; simp [mgInit], by rw [x9]; simp [mgInit], by rw [x10]; simp [mgInit], by rw [x11]; simp [mgInit], by rw [x12]; simp [mgInit], by rw [x13]; simp [mgInit]⟩
  · intro s it rest hp hhd
    obtain ⟨u, hu⟩ : ∃ u, (readLine s).1 = 72 :: 68 :: u := by
      obtain ⟨r, hr⟩ := List.isPrefixOf_iff_prefix.mp hhd
      exact ⟨r, hr.symm⟩
    have hhd2 : (str "HD").isPrefixOf (72 :: 68 :: u) = true := by
      rw [show str "HD" = [72, 68] from rfl]
      simp [List.isPrefixOf]
    simp only [parse_ms_rp] at hp
    rw [hu] at hp ⊢
    simp only [hhd2, if_true] at hp
    cases hmg : msFlags ((splitSpaces (trimEnd (72 :: 68 :: u))).drop 1) (msInit true) with
    | error e => rw [hmg] at hp; exact absurd hp (by simp [Except.map])
    | ok itv =>
      rw [hmg] at hp
      simp only [Except.map, Except.ok.injEq, Prod.mk.injEq] at hp
      obtain ⟨rfl, rfl⟩ := hp
      obtain ⟨x0, x1, x2, x3, x4, x5⟩ :=
        msFlags_fields _ _ _ hmg
      exact ⟨x0, by rw [x1]; simp [msInit], by rw [x2]; simp [msInit], by rw [x3]; simp [msInit], by rw [x4]; simp [msInit], by rw [x5]; simp [msInit]⟩
  · intro s it rest hp hhd
    obtain ⟨u, hu⟩ : ∃ u, (readLine s).1 = 72 :: 68 :: u := by
      obtain ⟨r, hr⟩ := List.isPrefixOf_iff_prefix.mp hhd
      exact ⟨r, hr.symm⟩
    have hhd2 : (str "HD").isPrefixOf (72 :: 68 :: u) = true := by
      rw [show str "HD" = [72, 68] from rfl]
      simp [List.isPrefixOf]
    simp only [parse_md_rp] at hp
    rw [hu] at hp ⊢
    simp only [hhd2, if_true] at hp
    cases hmg : mdFlags ((splitSpaces (trimEnd (72 :: 68 :: u))).drop 1) (mdInit true) with
    | error e => rw [hmg] at hp; exact absurd hp (by simp [Except.map])
    | ok itv =>
      rw [hmg] at hp
      simp only [Except.map, Except.ok.injEq, Prod.mk.injEq] at hp
      obtain ⟨rfl, rfl⟩ := hp
      obtain ⟨x0, x1, x2, x3⟩ :=
        mdFlags_fields _ _ _ hmg
      exact ⟨x0, by rw [x1]; simp [mdInit], by rw [x2]; simp [mdInit], by rw [x3]; simp [mdInit]⟩
  · intro s it rest hp hhd
    obtain ⟨u, hu⟩ : ∃ u, (readLine s).1 = 72 :: 68 :: u := by
      obtain ⟨r, hr⟩ := List.isPrefixOf_iff_prefix.mp hhd
      exact ⟨r, hr.symm⟩
    have hva : (str "VA").isPrefixOf (72 :: 68 :: u) = false := by
      rw [show str "VA" = [86, 65] from rfl]
      simp [List.isPrefixOf]
    have hhd2 : (str "HD").isPrefixOf (72 :: 68 :: u) = true := by
      rw [show str "HD" = [72, 68] from rfl]
      simp [List.isPrefixOf]
    simp only [parse_ma_rp] at hp
    rw [hu] at hp ⊢
    simp only [hva, Bool.false_eq_true, if_false, hhd2, if_true] at hp
    cases hmg : maFlags ((splitSpaces (trimEnd (72 :: 68 :: u))).drop 1) (maInit true) with
    | error e => rw [hmg] at hp; exact absurd hp (by simp [Except.map])
    | ok itv =>
      rw [hmg] at hp
      simp only [Except.map, Except.ok.injEq, Prod.mk.injEq] at hp
      obtain ⟨rfl, rfl⟩ := hp
      obtain ⟨x0, x1, x2, x3, x4, x5, x6⟩ :=
        maFlags_fields _ _ _ hmg
      exact ⟨x0, x1, by rw [x2]; simp [maInit], by rw [x3]; simp [maInit], by rw [x4]; simp [maInit], by rw [x5]; simp [maInit], by rw [x6]; simp [maInit]⟩

/-- Witness for C8 on the specification's example: `"HD b c7 Ox\r\n"`
decodes to an `MgItem` whose set fields are exactly the flags present. -/
theorem claim_c8_meta_flag_fields_witness :
    ({ success := true, base64_key := true, cas := some 7, opaq := some (str "x") } : MgItem).success = true ∧
    ({ success := true, base64_key := true, cas := some 7, opaq := some (str "x") } : MgItem).data_block = none ∧
    (({ success := true, base64_key := true, cas := some 7, opaq := some (str "x") } : MgItem).base64_key = true ↔ hasFlagTok 98 ((splitSpaces (trimEnd (readLine (str "HD b c7 Ox\r\n")).1)).drop 1)) ∧
    (({ success := true, base64_key := true, cas := some 7, opaq := some (str "x") } : MgItem).cas.isSome ↔ hasFlagTok 99 ((splitSpaces (trimEnd (readLine (str "HD b c7 Ox\r\n")).1)).drop 1)) ∧
    (({ success := true, base64_key := true, cas := some 7, opaq := some (str "x") } : MgItem).flags.isSome ↔ hasFlagTok 102 ((splitSpaces (trimEnd (readLine (str "HD b c7 Ox\r\n")).1)).drop 1)) ∧
    (({ success := true, base64_key := true, cas := some 7, opaq := some (str "x") } : MgItem).hit.isSome ↔ hasFlagTok 104 ((splitSpaces (trimEnd (readLine (str "HD b c7 Ox\r\n")).1)).drop 1)) ∧
    (({ success := true, base64_key := true, cas := some 7, opaq := some (str "x") } : MgItem).key.isSome ↔ hasFlagTok 107 ((splitSpaces (trimEnd (readLine (str "HD b c7 Ox\r\n")).1)).drop 1)) ∧
    (({ success := true, base64_key := true, cas := some 7, opaq := some (str "x") } : MgItem).last_access_ttl.isSome ↔ hasFlagTok 108 ((splitSpaces (trimEnd (readLine (str "HD b c7 Ox\r\n")).1)).drop 1)) ∧
    (({ success := true, base64_key := true, cas := some 7, opaq := some (str "x") } : MgItem).opaq.isSome ↔ hasFlagTok 79 ((splitSpaces (trimEnd (readLine (str "HD b c7 Ox\r\n")).1)).drop 1)) ∧
    (({ success := true, base64_key := true, cas := some 7, opaq := some (str "x") } : MgItem).size.isSome ↔ hasFlagTok 115 ((splitSpaces (trimEnd (readLine (str "HD b c7 Ox\r\n")).1)).drop 1)) ∧
    (({ success := true, base64_key := true, cas := some 7, opaq := some (str "x") } : MgItem).ttl.isSome ↔ hasFlagTok 116 ((splitSpaces (trimEnd (readLine (str "HD b c7 Ox\r\n")).1)).drop 1)) ∧
    (({ success := true, base64_key := true, cas := some 7, opaq := some (str "x") } : MgItem).won_recache = true ↔ hasFlagTok 87 ((splitSpaces (trimEnd (readLine (str "HD b c7 Ox\r\n")).1)).drop 1)) ∧
    (({ success := true, base64_key := true, cas := some 7, opaq := some (str "x") } : MgItem).stale = true ↔ hasFlagTok 88 ((splitSpaces (trimEnd (readLine (str "HD b c7 Ox\r\n")).1)).drop 1)) ∧
    (({ success := true, base64_key := true, cas := some 7, opaq := some (str "x") } : MgItem).already_win = true ↔ hasFlagTok 90 ((splitSpaces (trimEnd (readLine (str "HD b c7 Ox\r\n")).1)).drop 1)) :=
  claim_c8_meta_flag_fields.1 (str "HD b c7 Ox\r\n")
    { success := true, base64_key := true, cas := some 7, opaq := some (str "x") } []
    (by decide) (by decide)

/-- Claim C9: on a router with a non-empty connection list, every keyed
operation selects the connection at index `crc32(key) mod N` and forwards
the call verbatim, returning that connection's result unchanged; the
route is a pure function of the key bytes and the list length. -/
theorem claim_c9_crc32_routing {ρ σ τ : Type} (conns : List (ShardConn ρ σ τ))
    (key : List Nat) (i : Fin conns.length)
    (hi : i.val = crc32 key % conns.length) :
    (ClientCrc32.new conns).get key = .ok ((conns.get i).opGet key) ∧
    (∀ flags exptime noreply data,
      (ClientCrc32.new conns).set key flags exptime noreply data
        = .ok ((conns.get i).opSet key flags exptime noreply data)) ∧
    (∀ noreply, (ClientCrc32.new conns).delete key noreply
        = .ok ((conns.get i).opDelete key noreply)) := by
  have hlt : crc32 key % conns.length < conns.length :=
    Nat.mod_lt _ (Nat.lt_of_le_of_lt (Nat.zero_le _) i.isLt)
  have hfin : (⟨crc32 key % conns.length, hlt⟩ : Fin conns.length) = i :=
    Fin.ext hi.symm
  refine ⟨?_, fun flags exptime noreply data => ?_, fun noreply => ?_⟩
  · show (if h : crc32 key % conns.length < conns.length then _ else _) = _
    rw [dif_pos hlt]
    exact congrArg (fun j => Except.ok ((conns.get j).opGet key)) hfin
  · show (if h : crc32 key % conns.length < conns.length then _ else _) = _
    rw [dif_pos hlt]
    exact congrArg
      (fun j => Except.ok ((conns.get j).opSet key flags exptime noreply data)) hfin
  · show (if h : crc32 key % conns.length < conns.length then _ else _) = _
    rw [dif_pos hlt]
    exact congrArg (fun j => Except.ok ((conns.get j).opDelete key noreply)) hfin

/-- Witness for C9 at a concrete router: three connections returning 0, 1
and 2; `crc32("k7") mod 3 = 1`, so the call lands on the middle one. -/
theorem claim_c9_crc32_routing_witness :
    (ClientCrc32.new [⟨fun _ => 0, fun _ _ _ _ _ => 0, fun _ _ => 0⟩,
        ⟨fun _ => 1, fun _ _ _ _ _ => 1, fun _ _ => 1⟩,
        ⟨fun _ => (2 : Nat), fun _ _ _ _ _ => (2 : Nat), fun _ _ => (2 : Nat)⟩]).get
      (str "k7") = .ok 1 := by
  have h := claim_c9_crc32_routing
    [⟨fun _ => 0, fun _ _ _ _ _ => 0, fun _ _ => 0⟩,
     ⟨fun _ => 1, fun _ _ _ _ _ => 1, fun _ _ => 1⟩,
     ⟨fun _ => (2 : Nat), fun _ _ _ _ _ => (2 : Nat), fun _ _ => (2 : Nat)⟩]
    (str "k7") ⟨1, by decide⟩ (by decide)
  exact h.1

/-- Claim C10: `ClientCrc32::new` stores any connection vector without
validating the spec's non-empty precondition, and on the empty router every
keyed operation panics (remainder by zero / index out of bounds), modelled
as `Err.panicked`, instead of returning an error value. -/
theorem claim_c10_empty_router_panics (key : List Nat) (flags : Nat)
    (exptime : Int) (noreply : Bool) (data : List Nat) :
    (∀ (conns : List (ShardConn Nat Nat Nat)), (ClientCrc32.new conns).conns = conns) ∧
    (ClientCrc32.new ([] : List (ShardConn Nat Nat Nat))).get key = .error .panicked ∧
    (ClientCrc32.new ([] : List (ShardConn Nat Nat Nat))).set key flags exptime noreply data
      = .error .panicked ∧
    (ClientCrc32.new ([] : List (ShardConn Nat Nat Nat))).delete key noreply
      = .error .panicked := by
  refine ⟨fun conns => rfl, ?_, ?_, ?_⟩ <;>
    simp [ClientCrc32.get, ClientCrc32.set, ClientCrc32.delete, ClientCrc32.new]


/-- C3 (amended): for every storage, delete, incr/decr, touch, flush_all and
cache_memlimit command produced by the encoders, the dispatcher picks the
matching decoder and suppresses the response read exactly when the encoded
command carries the noreply token.  For storage, incr/decr, touch, flush_all
and cache_memlimit that happens iff the command was encoded with
`noreply = true`; for delete the dispatcher tests whether the whole encoded
command ends in `noreply\r\n`, so a `noreply = false` delete whose key itself
ends in `noreply` is also suppressed.  The suppressed decoders return trivial
success and consume no bytes from the response stream. -/
theorem claim_c3_noreply_dispatch (verb key data s : List Nat)
    (flags value limit : Nat) (exptime : Int) (eo : Option Int)
    (cas_u : Option Nat) (noreply : Bool) :
    ((verb = str "set" ∨ verb = str "add" ∨ verb = str "replace" ∨
        verb = str "append" ∨ verb = str "prepend" ∨ verb = str "cas") →
      32 ∉ key → 13 ∉ key →
      execOne (build_storage_cmd verb key flags exptime cas_u noreply data) s
        = liftRp .Bool (parse_storage_rp noreply s)) ∧
    (execOne (build_delete_cmd key noreply) s
      = liftRp .Bool
          (parse_delete_rp (noreply || (str "noreply").isSuffixOf key) s)) ∧
    ((verb = str "incr" ∨ verb = str "decr") →
      execOne (build_incr_decr_cmd verb key value noreply) s
        = liftRp .Value (parse_incr_decr_rp noreply s)) ∧
    (execOne (build_touch_cmd key exptime noreply) s
      = liftRp (fun b => .Bool b) (parse_touch_rp noreply s)) ∧
    (execOne (build_flush_all_cmd eo noreply) s
      = liftRp (fun _ => .Unit) (parse_ok_rp noreply s)) ∧
    (execOne (build_cache_memlimit_cmd limit noreply) s
      = liftRp (fun _ => .Unit) (parse_ok_rp noreply s)) ∧
    (parse_storage_rp true s = .ok (true, s) ∧
      parse_delete_rp true s = .ok (true, s) ∧
      parse_incr_decr_rp true s = .ok (none, s) ∧
      parse_touch_rp true s = .ok (true, s) ∧
      parse_ok_rp true s = .ok ((), s)) :=
  ⟨fun hv hk32 hk13 => execOne_storage_noreply verb key data s flags exptime cas_u noreply hv hk32 hk13,
    execOne_delete_noreply key s noreply,
    fun hv => execOne_incr_decr_noreply verb key s value noreply hv,
    execOne_touch_noreply key s exptime noreply,
    execOne_flush_all_noreply s eo noreply,
    execOne_memlimit_noreply s limit noreply,
    rfl, rfl, rfl, rfl, rfl⟩

/-- Concrete refutation of the original C3 wording: a delete command encoded
with `noreply = false` but whose key ends in `noreply` is treated as
suppressed by the dispatcher: it returns trivial success and leaves the
response stream (here a pending `NOT_FOUND` line) unconsumed. -/
theorem claim_c3_counterexample :
    execOne (build_delete_cmd (str "xnoreply") false) (str "NOT_FOUND\r\n")
      = .ok (.Bool true, str "NOT_FOUND\r\n") := rfl

/-- Closed instance of the C3 theorem: a `noreply` add is suppressed with the
stream untouched, and a non-`noreply` incr reads and decodes its response
line. -/
theorem claim_c3_noreply_dispatch_witness :
    execOne (build_storage_cmd (str "add") (str "k") 5 0 none true (str "v"))
        (str "STORED\r\n") = .ok (.Bool true, str "STORED\r\n") ∧
    execOne (build_incr_decr_cmd (str "incr") (str "k") 2 false) (str "7\r\n")
      = .ok (.Value (some 7), []) := by
  have h := claim_c3_noreply_dispatch (str "add") (str "k") (str "v") (str "STORED\r\n")
    5 2 0 0 none none true
  have h2 := claim_c3_noreply_dispatch (str "incr") (str "k") (str "v") (str "7\r\n")
    5 2 0 0 none none false
  constructor
  · rw [h.1 (Or.inr (Or.inl rfl)) (by decide) (by decide)]
    rfl
  · rw [h2.2.2.1 (Or.inl rfl)]
    rfl

end Mcmc
